import Mathlib

/-!
Verification of the catalog-sync, normalization and cart subsystems of the
lexiillc-ecommerce repository, via a shallow embedding of the TypeScript
source into Lean.  Database tables are lists of rows; Supabase/PostgREST
calls (`upsert` with `onConflict`, `update ... eq`, filtered selects) are
modelled by their documented SQL semantics.  `crypto.randomUUID()` and
generated row ids are modelled by a fresh-id counter threaded through the
state; timestamps (`new Date().toISOString()`) are `Nat` parameters.
-/

namespace Lexii

/-- `product_type` enum from `src/lib/supabase/products.ts`. -/
inductive PType where
  | sneaker
  | apparel
  | accessory
  | other
deriving DecidableEq, Repr

/-- Variant `condition` values (`'new' | 'used' | 'ds'`). -/
inductive VCondition where
  | vnew
  | used
  | ds
deriving DecidableEq, Repr

/-- Row of the `products` table (interface `Product`,
`src/lib/supabase/products.ts`). Generated UUIDs are modelled as `Nat`. -/
structure NProduct where
  id : Nat
  clover_id : Option String
  raw_name : String
  clean_name : Option String
  clean_brand : Option String
  clean_model : Option String
  clean_size : Option String
  clean_colorway : Option String
  product_type : Option PType
  price : Option Int
  stock_quantity : Int
  is_normalized : Bool
  is_parent : Bool
  last_synced : Nat
deriving DecidableEq, Repr

/-- Row of the `product_variants` table. -/
structure NVariant where
  product_id : Nat
  clover_item_id : Option String
  size : Option String
  color : Option String
  condition : Option VCondition
  variant_number : Option String
  price : Option Int
  stock_quantity : Int
  updated_at : Nat
deriving DecidableEq, Repr

/-- The catalog slice of the database: `products` and `product_variants`
tables plus the fresh-id supply for generated primary keys. -/
structure CatalogState where
  products : List NProduct
  variants : List NVariant
  nextId : Nat
deriving DecidableEq, Repr

/-- A payload field of a PostgREST write: `none` models a key that is absent
from the JSON body (TS `undefined`, dropped by `JSON.stringify`), so an
update leaves the column untouched and an insert takes the default. -/
def updField {α : Type} (old : Option α) (upd : Option α) : Option α :=
  match upd with
  | some x => some x
  | none => old

/-- Body of `upsertProduct`/`upsertProducts` (interface `ProductInsert`).
`clover_id` is always present in the body (possibly null). -/
structure ProductInsertP where
  clover_id : Option String
  raw_name : String
  clean_name : Option String
  clean_brand : Option String
  clean_model : Option String
  clean_size : Option String
  clean_colorway : Option String
  product_type : Option PType
  price : Option Int
  stock_quantity : Option Int
  is_normalized : Option Bool
  is_parent : Option Bool
deriving DecidableEq, Repr

/-- Body of `updateProductByCloverById` (interface `ProductUpdate`). -/
structure ProductUpdateP where
  raw_name : Option String
  clean_name : Option String
  clean_brand : Option String
  clean_model : Option String
  clean_size : Option String
  clean_colorway : Option String
  product_type : Option PType
  price : Option Int
  stock_quantity : Option Int
  is_normalized : Option Bool
  is_parent : Option Bool
deriving DecidableEq, Repr

/-- The all-absent update body, to be overridden per call site. -/
def emptyProductUpdate : ProductUpdateP :=
  { raw_name := none, clean_name := none, clean_brand := none,
    clean_model := none, clean_size := none, clean_colorway := none,
    product_type := none, price := none, stock_quantity := none,
    is_normalized := none, is_parent := none }

/-- `UPDATE products SET <present columns>, last_synced = now` applied to one
row (column set built from the payload keys, per PostgREST). -/
def applyProductUpdate (p : NProduct) (u : ProductUpdateP) (now : Nat) : NProduct :=
  { p with
    raw_name := u.raw_name.getD p.raw_name
    clean_name := updField p.clean_name u.clean_name
    clean_brand := updField p.clean_brand u.clean_brand
    clean_model := updField p.clean_model u.clean_model
    clean_size := updField p.clean_size u.clean_size
    clean_colorway := updField p.clean_colorway u.clean_colorway
    product_type := updField p.product_type u.product_type
    price := updField p.price u.price
    stock_quantity := u.stock_quantity.getD p.stock_quantity
    is_normalized := u.is_normalized.getD p.is_normalized
    is_parent := u.is_parent.getD p.is_parent
    last_synced := now }

/-- `ON CONFLICT (clover_id) DO UPDATE SET <payload columns>` applied to the
conflicting row (conflict fires only for a non-null `clover_id`). -/
def applyProductConflictUpdate (p : NProduct) (ins : ProductInsertP) (now : Nat) : NProduct :=
  { p with
    raw_name := ins.raw_name
    clean_name := updField p.clean_name ins.clean_name
    clean_brand := updField p.clean_brand ins.clean_brand
    clean_model := updField p.clean_model ins.clean_model
    clean_size := updField p.clean_size ins.clean_size
    clean_colorway := updField p.clean_colorway ins.clean_colorway
    product_type := updField p.product_type ins.product_type
    price := updField p.price ins.price
    stock_quantity := ins.stock_quantity.getD p.stock_quantity
    is_normalized := ins.is_normalized.getD p.is_normalized
    is_parent := ins.is_parent.getD p.is_parent
    last_synced := now }

/-- Row produced by a plain insert of `ProductInsert` (absent columns take
the table defaults; the primary key comes from the fresh-id supply). -/
def insertedProduct (ins : ProductInsertP) (freshId : Nat) (now : Nat) : NProduct :=
  { id := freshId
    clover_id := ins.clover_id
    raw_name := ins.raw_name
    clean_name := ins.clean_name
    clean_brand := ins.clean_brand
    clean_model := ins.clean_model
    clean_size := ins.clean_size
    clean_colorway := ins.clean_colorway
    product_type := ins.product_type
    price := ins.price
    stock_quantity := ins.stock_quantity.getD 0
    is_normalized := ins.is_normalized.getD false
    is_parent := ins.is_parent.getD false
    last_synced := now }

/-- Whether the payload conflicts with an existing row on `clover_id`
(SQL `NULL` never conflicts with `NULL`). -/
def cloverConflict (ins : ProductInsertP) (p : NProduct) : Bool :=
  match ins.clover_id with
  | some c => p.clover_id == some c
  | none => false

/-- `upsertProduct` (`src/lib/supabase/products.ts`): upsert one row keyed on
`clover_id`, stamping `last_synced`, returning the resulting row. -/
def upsertProduct (ins : ProductInsertP) (now : Nat) (s : CatalogState) :
    NProduct × CatalogState :=
  match (s.products.filter (fun p => cloverConflict ins p)).head? with
  | some hit =>
      (applyProductConflictUpdate hit ins now,
       { s with products := s.products.map (fun p =>
           if cloverConflict ins p then applyProductConflictUpdate p ins now else p) })
  | none =>
      let row := insertedProduct ins s.nextId now
      (row, { s with products := s.products ++ [row], nextId := s.nextId + 1 })

/-- `upsertProducts` (`src/lib/supabase/products.ts`): batch upsert keyed on
`clover_id`, each row stamped with `last_synced = now`. -/
def upsertProducts (rows : List ProductInsertP) (now : Nat) (s : CatalogState) :
    CatalogState :=
  rows.foldl (fun st r => (upsertProduct r now st).2) s

/-- `updateProductByCloverById`: updates every row whose `clover_id` matches,
then `.select().single()` — an error unless exactly one row matched. -/
def updateProductByCloverById (cloverId : String) (u : ProductUpdateP) (now : Nat)
    (s : CatalogState) : CatalogState × Except String NProduct :=
  let s' := { s with products := s.products.map (fun p =>
      if p.clover_id == some cloverId then applyProductUpdate p u now else p) }
  match s.products.filter (fun p => p.clover_id == some cloverId) with
  | [p] => (s', .ok (applyProductUpdate p u now))
  | _ => (s', .error "JSON object requested, multiple (or no) rows returned")

/-- `getUnnormalizedProducts`: rows with `is_normalized = false` and positive
stock, up to `limit`. -/
def getUnnormalizedProducts (limit : Nat) (s : CatalogState) : List NProduct :=
  (s.products.filter (fun p => !p.is_normalized && decide (p.stock_quantity > 0))).take limit

/-- `findParentProduct`: first stored parent matching brand/model (and
colorway when given). -/
def findParentProduct (brand modelName : String) (colorway : Option String)
    (s : CatalogState) : Option NProduct :=
  (s.products.filter (fun p =>
    p.is_parent && p.clean_brand == some brand && p.clean_model == some modelName &&
      (match colorway with
       | some c => p.clean_colorway == some c
       | none => true))).head?

/-- Body of `insertVariant` (fields of its parameter object; optional fields
absent from the body are dropped by `JSON.stringify`). -/
structure VariantInsertP where
  product_id : Nat
  clover_item_id : Option String
  size : Option String
  color : Option String
  condition : Option VCondition
  variant_number : Option String
  price : Option Int
  stock_quantity : Int
deriving DecidableEq, Repr

/-- Conflict test for the `product_variants` upsert keyed on
`clover_item_id` (`NULL` never conflicts). -/
def variantConflict (ins : VariantInsertP) (w : NVariant) : Bool :=
  match ins.clover_item_id with
  | some c => w.clover_item_id == some c
  | none => false

/-- `insertVariant` (`src/lib/supabase/products.ts`): upsert into
`product_variants` keyed on `clover_item_id`, stamping `updated_at`. -/
def insertVariant (ins : VariantInsertP) (now : Nat) (s : CatalogState) : CatalogState :=
  if s.variants.any (fun w => variantConflict ins w) then
    { s with variants := s.variants.map (fun w =>
        if variantConflict ins w then
          { product_id := ins.product_id
            clover_item_id := w.clover_item_id
            size := updField w.size ins.size
            color := updField w.color ins.color
            condition := updField w.condition ins.condition
            variant_number := updField w.variant_number ins.variant_number
            price := updField w.price ins.price
            stock_quantity := ins.stock_quantity
            updated_at := now }
        else w) }
  else
    { s with variants := s.variants ++
        [{ product_id := ins.product_id
           clover_item_id := ins.clover_item_id
           size := ins.size
           color := ins.color
           condition := ins.condition
           variant_number := ins.variant_number
           price := ins.price
           stock_quantity := ins.stock_quantity
           updated_at := now }] }

/-- `updateParentStock` (`src/lib/supabase/products.ts`): sum the stored
variants of `parentId` and write the total into the parent product row. -/
def updateParentStock (parentId : Nat) (now : Nat) (s : CatalogState) : CatalogState :=
  let variants := s.variants.filter (fun v => v.product_id == parentId)
  let totalStock := variants.foldl (fun acc v => acc + v.stock_quantity) 0
  { s with products := s.products.map (fun p =>
      if p.id == parentId then { p with stock_quantity := totalStock, last_synced := now } else p) }

/-- Upstream item as consumed by `syncAllProductsFromClover`
(`src/lib/sync/sync-products.ts`). -/
structure CloverItem where
  id : String
  name : String
  price : Option Int
  stockCount : Option Int
deriving DecidableEq, Repr

/-- The `ProductInsert` built for each Clover item in
`syncAllProductsFromClover` (raw data only, `is_normalized: false`). -/
def cloverItemToInsert (item : CloverItem) : ProductInsertP :=
  { clover_id := some item.id
    raw_name := item.name
    clean_name := none, clean_brand := none, clean_model := none
    clean_size := none, clean_colorway := none, product_type := none
    price := item.price
    stock_quantity := some (item.stockCount.getD 0)
    is_normalized := some false
    is_parent := none }

/-- `syncAllProductsFromClover`: map the fetched Clover items to raw
`ProductInsert` rows and batch-upsert them (the upstream fetch itself is an
external collaborator and enters as the `items` argument). -/
def syncAllProductsFromClover (items : List CloverItem) (now : Nat)
    (s : CatalogState) : CatalogState :=
  upsertProducts (items.map cloverItemToInsert) now s

/-- Sum of the stored `stock_quantity` of the variants of one parent. -/
def variantStockSum (parentId : Nat) (s : CatalogState) : Int :=
  (s.variants.filter (fun v => v.product_id == parentId)).foldl
    (fun acc v => acc + v.stock_quantity) 0

/-- Stored `stock_quantity` of the product row with the given id. -/
def parentStoredStock (parentId : Nat) (s : CatalogState) : Option Int :=
  ((s.products.filter (fun p => p.id == parentId)).head?).map (fun p => p.stock_quantity)

/-! ## Cart engine (`lib/cart.ts`, source part_009)

Cart and cart-item primary keys (`crypto.randomUUID()`) are modelled as
`Nat` drawn from the state's fresh-id counter. -/

/-- Row of the `Cart` table. -/
structure CartRow where
  id : Nat
  userId : Option String
  sessionId : Option String
  createdAt : Nat
  updatedAt : Nat
deriving DecidableEq, Repr

/-- Row of the `CartItem` table. -/
structure CartItemRow where
  id : Nat
  cartId : Nat
  productId : String
  quantity : Int
deriving DecidableEq, Repr

/-- The cart slice of the database plus the fresh-id supply. -/
structure CartState where
  carts : List CartRow
  items : List CartItemRow
  nextId : Nat
deriving DecidableEq, Repr

/-- Modelled from the spec: the constants of `lib/cart-limits`
(`MAX_CART_ITEMS`, `MAX_ITEM_QUANTITY`, `MAX_CARTS_PER_USER`,
`MAX_SESSION_CARTS`) are imported by the cart engine but their defining
module is not part of the available source, and the spec gives no concrete
values ("a configured cap"); they enter as parameters. -/
structure CartLimits where
  maxCartItems : Nat
  maxItemQuantity : Int
  maxCartsPerUser : Nat
  maxSessionCarts : Nat
deriving DecidableEq, Repr

/-- The `CartItem` interface returned to callers. -/
structure CartItemView where
  id : Nat
  productId : String
  quantity : Int
deriving DecidableEq, Repr

/-- The `Cart` interface returned to callers. -/
structure CartView where
  id : Nat
  userId : Option String
  sessionId : Option String
  items : List CartItemView
  createdAt : Nat
  updatedAt : Nat
deriving DecidableEq, Repr

/-- View of a cart row together with its `CartItem(*)` join. -/
def cartRowToView (c : CartRow) (s : CartState) : CartView :=
  { id := c.id
    userId := c.userId
    sessionId := c.sessionId
    items := (s.items.filter (fun i => i.cartId == c.id)).map
      (fun i => { id := i.id, productId := i.productId, quantity := i.quantity })
    createdAt := c.createdAt
    updatedAt := c.updatedAt }

/-- `getCart`: `select('*, CartItem(*)').eq('id', cartId).single()` —
`null` unless exactly one cart row matches. -/
def getCart (cartId : Nat) (s : CartState) : Option CartView :=
  match s.carts.filter (fun c => c.id == cartId) with
  | [c] => some (cartRowToView c s)
  | _ => none

/-- Re-stamp the cart's `updatedAt` (the `Cart.update({updatedAt: now})`
call made after every item mutation). -/
def touchCart (cartId : Nat) (now : Nat) (s : CartState) : CartState :=
  { s with carts := s.carts.map (fun c =>
      if c.id == cartId then { c with updatedAt := now } else c) }

/-- `addItemToCart`: validate the quantity, reject overflow past
`MAX_ITEM_QUANTITY` for an existing row, reject new rows past
`MAX_CART_ITEMS`, otherwise update in place or insert. -/
def addItemToCart (L : CartLimits) (cartId : Nat) (productId : String)
    (quantity : Int) (now : Nat) (s : CartState) :
    CartState × Except String CartItemView :=
  if quantity ≤ 0 then (s, .error "Quantity must be a positive integer")
  else if quantity > L.maxItemQuantity then
    (s, .error "Quantity cannot exceed MAX_ITEM_QUANTITY per item")
  else
    match getCart cartId s with
    | none => (s, .error "Cart not found")
    | some cart =>
        match (s.items.filter (fun i => i.cartId == cartId && i.productId == productId)).head? with
        | some existingItem =>
            let newQuantity := existingItem.quantity + quantity
            if newQuantity > L.maxItemQuantity then
              (s, .error "Total quantity cannot exceed MAX_ITEM_QUANTITY per item")
            else
              let s1 := { s with items := s.items.map (fun i =>
                  if i.id == existingItem.id then { i with quantity := newQuantity } else i) }
              (touchCart cartId now s1,
               .ok { id := existingItem.id, productId := existingItem.productId,
                     quantity := newQuantity })
        | none =>
            if cart.items.length ≥ L.maxCartItems then
              (s, .error "Cart cannot have more than MAX_CART_ITEMS items")
            else
              let itemId := s.nextId
              let s1 := { s with
                items := s.items ++ [{ id := itemId, cartId := cartId,
                                       productId := productId, quantity := quantity }]
                nextId := s.nextId + 1 }
              (touchCart cartId now s1,
               .ok { id := itemId, productId := productId, quantity := quantity })

/-- `updateCartItemQuantity`: bounds-check, verify the item belongs to the
cart, then write the new quantity and re-stamp the cart. -/
def updateCartItemQuantity (L : CartLimits) (cartId itemId : Nat)
    (quantity : Int) (now : Nat) (s : CartState) :
    CartState × Except String CartItemView :=
  if quantity ≤ 0 then (s, .error "Quantity must be a positive integer")
  else if quantity > L.maxItemQuantity then
    (s, .error "Quantity cannot exceed MAX_ITEM_QUANTITY per item")
  else
    match s.items.filter (fun i => i.id == itemId && i.cartId == cartId) with
    | [item] =>
        let s1 := { s with items := s.items.map (fun i =>
            if i.id == itemId && i.cartId == cartId then { i with quantity := quantity } else i) }
        (touchCart cartId now s1,
         .ok { id := item.id, productId := item.productId, quantity := quantity })
    | _ => (s, .error "Cart item not found or does not belong to this cart")

/-- The merge loop of `mergeCarts`: for each session item, add its quantity
into the user cart's item when the product is already there (lookup against
the user-cart snapshot taken before the loop), else insert it.  The first
error aborts the remaining items and is propagated. -/
def mergeCartsLoop (L : CartLimits) (userCart : CartView) (userCartId : Nat)
    (now : Nat) : List CartItemView → CartState → CartState × Except String Unit
  | [], s => (s, .ok ())
  | sessionItem :: rest, s =>
      match userCart.items.find? (fun item => item.productId == sessionItem.productId) with
      | some existingUserItem =>
          match updateCartItemQuantity L userCartId existingUserItem.id
              (existingUserItem.quantity + sessionItem.quantity) now s with
          | (s', .ok _) => mergeCartsLoop L userCart userCartId now rest s'
          | (s', .error e) => (s', .error e)
      | none =>
          match addItemToCart L userCartId sessionItem.productId
              sessionItem.quantity now s with
          | (s', .ok _) => mergeCartsLoop L userCart userCartId now rest s'
          | (s', .error e) => (s', .error e)

/-- `mergeCarts`: merge the session cart's items into the user cart, then
delete the session cart and its items and return the re-fetched user
cart. -/
def mergeCarts (L : CartLimits) (sessionCartId userCartId : Nat) (now : Nat)
    (s : CartState) : CartState × Except String CartView :=
  match getCart sessionCartId s, getCart userCartId s with
  | some sessionCart, some userCart =>
      if sessionCart.items.isEmpty then
        ({ s with carts := s.carts.filter (fun c => !(c.id == sessionCartId)) },
         .ok userCart)
      else
        match mergeCartsLoop L userCart userCartId now sessionCart.items s with
        | (s', .error e) => (s', .error e)
        | (s', .ok _) =>
            let s2 := { s' with
              items := s'.items.filter (fun i => !(i.cartId == sessionCartId)) }
            let s3 := { s2 with
              carts := s2.carts.filter (fun c => !(c.id == sessionCartId)) }
            match getCart userCartId s3 with
            | some merged => (s3, .ok merged)
            | none => (s3, .error "Failed to retrieve merged cart")
  | _, _ => (s, .error "One or both carts not found")

/-- Stable descending insertion by `updatedAt` (the
`order('updatedAt', { ascending: false })` clause; ties keep store order). -/
def insertByUpdatedDesc (c : CartRow) : List CartRow → List CartRow
  | [] => [c]
  | d :: t => if d.updatedAt ≥ c.updatedAt then d :: insertByUpdatedDesc c t else c :: d :: t

/-- Sort cart rows by `updatedAt` descending (stable). -/
def sortByUpdatedDesc (l : List CartRow) : List CartRow :=
  l.foldr insertByUpdatedDesc []

/-- The trailing "create a new session cart" block of `getOrCreateCart`
(`sessionId: sessionId || null`, fresh id, `createdAt = updatedAt = now`). -/
def createSessionCart (sessionId : Option String) (now : Nat) (s : CartState) :
    CartState × Except String CartView :=
  let cartId := s.nextId
  let row : CartRow := { id := cartId, userId := none, sessionId := sessionId,
                         createdAt := now, updatedAt := now }
  ({ s with carts := s.carts ++ [row], nextId := s.nextId + 1 },
   .ok { id := cartId, userId := none, sessionId := sessionId, items := [],
         createdAt := now, updatedAt := now })

/-- The "no user cart found" tail of the authenticated branch: cap-check the
user's cart count, delete the oldest carts (and their items) beyond
`MAX_CARTS_PER_USER - 1`, then insert a fresh user cart. -/
def createUserCartWithCleanup (L : CartLimits) (uid : String) (now : Nat)
    (s : CartState) : CartState × Except String CartView :=
  let allUserCarts := sortByUpdatedDesc (s.carts.filter (fun c => c.userId == some uid))
  let s1 :=
    if allUserCarts.length ≥ L.maxCartsPerUser then
      let cartIdsToDelete := (allUserCarts.drop (L.maxCartsPerUser - 1)).map (fun c => c.id)
      { s with
        items := s.items.filter (fun i => !(cartIdsToDelete.contains i.cartId))
        carts := s.carts.filter (fun c => !(cartIdsToDelete.contains c.id)) }
    else s
  let cartId := s1.nextId
  let row : CartRow := { id := cartId, userId := some uid, sessionId := none,
                         createdAt := now, updatedAt := now }
  ({ s1 with carts := s1.carts ++ [row], nextId := s1.nextId + 1 },
   .ok { id := cartId, userId := some uid, sessionId := none, items := [],
         createdAt := now, updatedAt := now })

/-- `getOrCreateCart`: resolve (or create) the cart for the given identity,
merging or re-homing a session cart on an authentication transition. -/
def getOrCreateCart (L : CartLimits) (userId sessionId : Option String)
    (now : Nat) (s : CartState) : CartState × Except String CartView :=
  match userId with
  | some uid =>
      let userCart : Option CartView :=
        match (sortByUpdatedDesc (s.carts.filter (fun c => c.userId == some uid))).head? with
        | some c => some (cartRowToView c s)
        | none => none
      let afterSession : Option (CartState × Except String CartView) :=
        match sessionId with
        | some sid =>
            match (sortByUpdatedDesc (s.carts.filter
                (fun c => c.sessionId == some sid && c.userId == none))).head? with
            | some sessionCartRow =>
                match userCart with
                | some uc => some (mergeCarts L sessionCartRow.id uc.id now s)
                | none =>
                    let s1 := { s with carts := s.carts.map (fun c =>
                        if c.id == sessionCartRow.id then
                          { c with userId := some uid, sessionId := none, updatedAt := now }
                        else c) }
                    match getCart sessionCartRow.id s1 with
                    | some v => some (s1, .ok v)
                    | none => some (s1, .error "Failed to convert session cart to user cart")
            | none => none
        | none => none
      match afterSession with
      | some r => r
      | none =>
          match userCart with
          | some uc => (s, .ok uc)
          | none => createUserCartWithCleanup L uid now s
  | none =>
      match sessionId with
      | some sid =>
          match (sortByUpdatedDesc (s.carts.filter
              (fun c => c.sessionId == some sid && c.userId == none))).head? with
          | some c => (s, .ok (cartRowToView c s))
          | none =>
              let allSessionCarts := sortByUpdatedDesc (s.carts.filter
                (fun c => c.sessionId == some sid && c.userId == none))
              let s1 :=
                if allSessionCarts.length ≥ L.maxSessionCarts then
                  let cartIdsToDelete :=
                    (allSessionCarts.drop (L.maxSessionCarts - 1)).map (fun c => c.id)
                  { s with
                    items := s.items.filter (fun i => !(cartIdsToDelete.contains i.cartId))
                    carts := s.carts.filter (fun c => !(cartIdsToDelete.contains c.id)) }
                else s
              createSessionCart (some sid) now s1
      | none => createSessionCart none now s

/-- Total stored quantity of a product inside a cart (sum over the
`CartItem` rows of that cart and product; a well-formed cart has at most one
such row). -/
def quantityOf (cartId : Nat) (productId : String) (s : CartState) : Int :=
  ((s.items.filter (fun i => i.cartId == cartId && i.productId == productId)).map
    (fun i => i.quantity)).sum

/-- Total quantity a list of cart-item views holds for one product. -/
def listQty (productId : String) (l : List CartItemView) : Int :=
  ((l.filter (fun p => p.productId == productId)).map (fun p => p.quantity)).sum

/-- Well-formedness of a cart store relative to a user cart `u` (snapshot
view `uc`) and a list `sis` of session items still to merge: the user cart
row is unique, item ids are unique and below the fresh-id counter, each
still-to-merge product matches the snapshot (one stored row mirroring the
snapshot item, or no stored row when the product is new), the distinct new
products still fit under `MAX_CART_ITEMS`, and the still-to-merge items have
valid quantities whose combination with the snapshot stays within
`MAX_ITEM_QUANTITY`.  These are the data-model invariants of §3 of the spec
plus the no-overflow and capacity hypotheses of the merge claims. -/
def MergeInv (L : CartLimits) (u : Nat) (uc : CartView)
    (sis : List CartItemView) (s : CartState) : Prop :=
  (∃ r ∈ s.carts, s.carts.filter (fun c => c.id == u) = [r])
  ∧ (s.items.map (fun i => i.id)).Nodup
  ∧ (∀ i ∈ s.items, i.id < s.nextId)
  ∧ (∀ p ∈ sis, ∀ eu ∈ uc.items,
      uc.items.find? (fun it => it.productId == p.productId) = some eu →
      ∃ row ∈ s.items, row.id = eu.id ∧ row.cartId = u ∧ row.productId = p.productId
        ∧ row.quantity = eu.quantity
        ∧ s.items.filter (fun i => i.cartId == u && i.productId == p.productId) = [row])
  ∧ (∀ p ∈ sis,
      uc.items.find? (fun it => it.productId == p.productId) = none →
      s.items.filter (fun i => i.cartId == u && i.productId == p.productId) = [])
  ∧ ((s.items.filter (fun i => i.cartId == u)).length
      + (sis.filter (fun p =>
          (uc.items.find? (fun it => it.productId == p.productId)).isNone)).length
      ≤ L.maxCartItems)
  ∧ (∀ p ∈ sis, 1 ≤ p.quantity ∧ p.quantity ≤ L.maxItemQuantity)
  ∧ (∀ p ∈ sis, ∀ eu ∈ uc.items,
      uc.items.find? (fun it => it.productId == p.productId) = some eu →
      1 ≤ eu.quantity ∧ eu.quantity + p.quantity ≤ L.maxItemQuantity)
  ∧ (sis.map (fun p => p.productId)).Nodup

/-! ## Normalization pipeline (`normalizeUnnormalizedProducts`, parent/variant
version from the sync utility bundled in `src/components/CookieConsent.tsx`) -/

/-- Classifier confidence levels. -/
inductive Confidence where
  | high
  | medium
  | low
deriving DecidableEq, Repr

/-- Typed classifier result (`CleanedProductData`) as consumed by the
pipeline. -/
structure CleanedProductData where
  cleanedName : String
  brand : String
  model : String
  productType : PType
  size : Option String
  colorway : Option String
  condition : Option VCondition
  variantNumber : Option String
  confidence : Confidence
deriving DecidableEq, Repr

/-- Outcome of the awaited per-row work as seen by the pipeline's try/catch:
the classifier adapter resolves with a result or `null`, or an awaited call
rejects with an error whose message the loop inspects for a rate-limit
signal (`429`). -/
inductive ClassifyOutcome where
  | ok (result : Option CleanedProductData)
  | thrown (msg : String)
deriving DecidableEq, Repr

/-- `error.message.includes('429')`. -/
def hasPrefixL : List Char → List Char → Bool
  | _, [] => true
  | [], _ :: _ => false
  | a :: as, b :: bs => a == b && hasPrefixL as bs

def containsSub : List Char → List Char → Bool
  | [], needle => needle.isEmpty
  | a :: as, needle => hasPrefixL (a :: as) needle || containsSub as needle

def contains429 (msg : String) : Bool :=
  containsSub msg.toList "429".toList

/-- JS `x || undefined` on an optional string: the empty string is falsy. -/
def orUndef (o : Option String) : Option String :=
  match o with
  | some str => if str.isEmpty then none else some str
  | none => none

/-- String interpolation of a nullable Clover id (`${product.clover_id}`). -/
def cloverStr (p : NProduct) : String :=
  match p.clover_id with
  | some c => c
  | none => "null"

/-- The `ProductUpdate` body of the could-not-parse branch. -/
def fallbackPayload (product : NProduct) : ProductUpdateP :=
  { emptyProductUpdate with
    clean_name := some product.raw_name
    product_type := some PType.other
    is_normalized := some true
    is_parent := some false }

/-- The `ProductUpdate` body stamped on a successfully classified raw row. -/
def successPayload (d : CleanedProductData) : ProductUpdateP :=
  { emptyProductUpdate with
    clean_name := some d.cleanedName
    clean_brand := some d.brand
    clean_model := some d.model
    clean_size := orUndef d.size
    clean_colorway := orUndef d.colorway
    product_type := some d.productType
    is_normalized := some true
    is_parent := some false }

/-- The `ProductInsert` body of a newly created Parent (`clover_id: null`). -/
def parentPayload (d : CleanedProductData) (product : NProduct) : ProductInsertP :=
  { clover_id := none
    raw_name := (d.brand ++ " " ++ d.model).trim
    clean_name := some ((d.brand ++ " " ++ d.model).trim)
    clean_brand := some d.brand
    clean_model := some d.model
    clean_size := none
    clean_colorway := none
    product_type := some d.productType
    price := product.price
    stock_quantity := some 0
    is_normalized := some true
    is_parent := some true }

/-- The `insertVariant` body attaching a classified raw row to its Parent. -/
def variantPayload (d : CleanedProductData) (product : NProduct) (parentId : Nat) :
    VariantInsertP :=
  { product_id := parentId
    clover_item_id := product.clover_id
    size := d.size
    color := d.colorway
    condition := d.condition
    variant_number := d.variantNumber
    price := product.price
    stock_quantity := product.stock_quantity }

/-- The `else` branch of the per-row classification: mark the row normalized
with the raw name as clean name and `product_type = 'other'` so it is not
retried.  The boolean result tells which counter the loop bumps. -/
def fallbackRow (product : NProduct) (now : Nat) (s : CatalogState) :
    CatalogState × Except String Bool :=
  match product.clover_id with
  | none => (s, .error "JSON object requested, multiple (or no) rows returned")
  | some c =>
      match updateProductByCloverById c (fallbackPayload product) now s with
      | (s', .ok _) => (s', .ok false)
      | (s', .error e) => (s', .error e)

/-- One iteration of the normalization loop's `try` block: classify, find or
create the parent, upsert the variant, recompute parent stock, and mark the
raw row normalized — or park an unparseable row via `fallbackRow`.  The
returned `Except` carries the thrown error to the loop's `catch`. -/
def processRow (classify : String → ClassifyOutcome) (now : Nat)
    (product : NProduct) (s : CatalogState) : CatalogState × Except String Bool :=
  match classify product.raw_name with
  | .thrown msg => (s, .error msg)
  | .ok aiResult =>
      match aiResult with
      | none => fallbackRow product now s
      | some d =>
          if d.confidence == Confidence.low then fallbackRow product now s
          else
            let (parent, s1) :=
              match findParentProduct d.brand d.model none s with
              | some p0 => (p0, s)
              | none => upsertProduct (parentPayload d product) now s
            let s2 := insertVariant (variantPayload d product parent.id) now s1
            let s3 := updateParentStock parent.id now s2
            match product.clover_id with
            | none => (s3, .error "JSON object requested, multiple (or no) rows returned")
            | some c =>
                match updateProductByCloverById c (successPayload d) now s3 with
                | (s4, .ok _) => (s4, .ok true)
                | (s4, .error e) => (s4, .error e)

/-- Mutable loop state: the store plus the counters of `SyncResult`. -/
structure NormState where
  s : CatalogState
  normalized : Nat
  synced : Nat
  errors : List String
  rateLimited : Bool
deriving DecidableEq, Repr

/-- The `for (const product of unnormalized)` loop with its `catch`: a
rate-limit error (`429`) stops the batch, any other error is recorded and
the loop continues with the next row. -/
def normalizeLoop (classify : String → ClassifyOutcome) (now : Nat) :
    List NProduct → NormState → NormState
  | [], st => st
  | product :: rest, st =>
      match processRow classify now product st.s with
      | (s', .ok true) =>
          normalizeLoop classify now rest { st with s := s', normalized := st.normalized + 1 }
      | (s', .ok false) =>
          normalizeLoop classify now rest { st with s := s', synced := st.synced + 1 }
      | (s', .error msg) =>
          if contains429 msg then
            { st with s := s', rateLimited := true }
          else
            normalizeLoop classify now rest
              { st with
                s := s'
                errors := st.errors ++ ["Failed to normalize " ++ cloverStr product ++ ": " ++ msg] }

/-- The `SyncResult` of a normalization run together with the final store. -/
structure NormOutcome where
  total : Nat
  synced : Nat
  normalized : Nat
  errors : List String
  rateLimited : Bool
  state : CatalogState
deriving DecidableEq, Repr

/-- `normalizeUnnormalizedProducts`: fetch one batch of unnormalized rows
and run the classification loop over it. -/
def normalizeUnnormalizedProducts (classify : String → ClassifyOutcome)
    (batchSize : Nat) (now : Nat) (s : CatalogState) : NormOutcome :=
  let unnormalized := getUnnormalizedProducts batchSize s
  if unnormalized.isEmpty then
    { total := unnormalized.length, synced := 0, normalized := 0, errors := [],
      rateLimited := false, state := s }
  else
    let st := normalizeLoop classify now unnormalized
      { s := s, normalized := 0, synced := 0, errors := [], rateLimited := false }
    { total := unnormalized.length, synced := st.synced, normalized := st.normalized,
      errors := st.errors, rateLimited := st.rateLimited, state := st.s }

/-- Normalization-relevant fields of the product rows stored under one
Clover id. -/
def cloverMark (c : String) (s : CatalogState) : List (Bool × Option String × Option PType) :=
  (s.products.filter (fun p => p.clover_id == some c)).map
    (fun p => (p.is_normalized, p.clean_name, p.product_type))

/-- Clean name the pipeline stamps on a row given the classifier outcome. -/
def expectedCleanName (res : Option CleanedProductData) (r : NProduct) : Option String :=
  match res with
  | some d => if d.confidence == Confidence.low then some r.raw_name else some d.cleanedName
  | none => some r.raw_name

/-- Product type the pipeline stamps on a row given the classifier outcome. -/
def expectedPType (res : Option CleanedProductData) : Option PType :=
  match res with
  | some d => if d.confidence == Confidence.low then some PType.other else some d.productType
  | none => some PType.other

/-! ## Name classifier adapter (`cleanProductNameWithAI`,
`src/lib/ai-product-cleaner.ts`)

The transport (`fetch`), the envelope decode (`response.json()`) and
`JSON.parse` of the (fence-stripped) completion text are external runtime
primitives and enter as parameters; the caching, truthiness checks, required
field validation and the in-place fixes are modelled concretely.  The
adapter's Lean type is `Option ParsedAI`: it is a total function, embedding
the source's catch-all contract that no exception escapes to the caller. -/

/-- The untyped object produced by `JSON.parse` and cast to
`CleanedProductData`: every field may be absent (`undefined`). -/
structure ParsedAI where
  cleanedName : Option String
  brand : Option String
  model : Option String
  productType : Option String
  size : Option String
  colorway : Option String
  condition : Option String
  variantNumber : Option String
  confidence : Option String
deriving DecidableEq, Repr

/-- Outcome of the Groq HTTP call: the request may reject (network error or
an envelope that is not JSON), return a non-OK status, or succeed with
`data.choices?.[0]?.message?.content`. -/
inductive FetchOutcome where
  | netError
  | httpError
  | success (content : Option String)
deriving DecidableEq, Repr

/-- The in-place fixes applied to a parsed result that passed the required
field checks: strip a duplicated brand prefix from the model, coerce an
unknown `productType` to `other`, and drop an invalid `condition`. -/
def validateParsed (p : ParsedAI) : ParsedAI :=
  { p with
    model :=
      match p.model, p.brand with
      | some m0, some b0 =>
          if !m0.isEmpty && !b0.isEmpty && m0.toLower.startsWith b0.toLower then
            some ((m0.drop b0.length).trim)
          else some m0
      | _, _ => p.model
    productType :=
      if p.productType == some "sneaker" || p.productType == some "apparel"
          || p.productType == some "accessory" || p.productType == some "other" then
        p.productType
      else some "other"
    condition :=
      match p.condition with
      | some c0 =>
          if c0 == "new" || c0 == "used" || c0 == "ds" then some c0 else none
      | none => none }

/-- `cleanProductNameWithAI`: consult the cache, require the API key, fetch,
extract and parse the completion, and return the validated result — `null`
on every failure path. -/
def cleanProductNameWithAI (cached : Option (Option ParsedAI)) (apiKey : Option String)
    (fetchResult : FetchOutcome) (parse : String → Option ParsedAI) : Option ParsedAI :=
  match cached with
  | some (some cachedParsed) => some cachedParsed
  | _ =>
      match apiKey with
      | none => none
      | some _ =>
          match fetchResult with
          | .netError => none
          | .httpError => none
          | .success content =>
              match content with
              | none => none
              | some text0 =>
                  let text := text0.trim
                  if text.isEmpty then none
                  else
                    match parse text with
                    | none => none
                    | some parsed =>
                        if (match parsed.cleanedName with
                            | some cn => !cn.isEmpty
                            | none => false)
                            && parsed.brand.isSome then
                          some (validateParsed parsed)
                        else none

lemma filter_id_map_stock (l : List NProduct) (pid : Nat) (total : Int) (now : Nat) :
    (l.map (fun p => if p.id == pid then { p with stock_quantity := total, last_synced := now } else p)).filter
        (fun p => p.id == pid)
      = (l.filter (fun p => p.id == pid)).map
          (fun p => { p with stock_quantity := total, last_synced := now }) := by
  induction l with
  | nil => rfl
  | cons a t ih =>
      by_cases h : a.id = pid
      · simp [List.filter_cons, List.map_cons, h]
        simpa using ih
      · simp [List.filter_cons, List.map_cons, h]
        simpa using ih

lemma updateParentStock_variants (pid now : Nat) (s : CatalogState) :
    (updateParentStock pid now s).variants = s.variants := rfl

lemma variantStockSum_updateParentStock (pid pid' now : Nat) (s : CatalogState) :
    variantStockSum pid (updateParentStock pid' now s) = variantStockSum pid s := rfl

lemma parentStoredStock_updateParentStock (pid now : Nat) (s : CatalogState)
    (h : s.products.filter (fun p => p.id == pid) ≠ []) :
    parentStoredStock pid (updateParentStock pid now s) = some (variantStockSum pid s) := by
  unfold parentStoredStock updateParentStock
  rw [filter_id_map_stock]
  cases hf : s.products.filter (fun p => p.id == pid) with
  | nil => exact absurd hf h
  | cons a t => simp [variantStockSum]

lemma updateParentStock_filter_ne (pid now : Nat) (s : CatalogState)
    (h : s.products.filter (fun p => p.id == pid) ≠ []) :
    (updateParentStock pid now s).products.filter (fun p => p.id == pid) ≠ [] := by
  unfold updateParentStock
  simp only []
  rw [filter_id_map_stock]
  intro hc
  exact h (List.map_eq_nil_iff.mp hc)

end Lexii

namespace Lexii

/-- Claim C1: the catalog sync's batch upsert includes `is_normalized: false`
in the payload of every row, and the merge-on-conflict update therefore
resets the flag on an already-stored row.  This theorem evaluates
`syncAllProductsFromClover` at the failing input: a stored raw row that is
already normalized (`is_normalized = true`, clean fields set) upserted from
an upstream item with new price/stock.  Price and stock are updated and the
clean classification fields are untouched, but `is_normalized` is reset to
`false`, contradicting the claim that existing rows keep their normalization
state. -/
theorem c1_resync_resets_normalized_flag :
    (syncAllProductsFromClover
        [{ id := "c-1", name := "NIKE DUNK 10 PANDA", price := some 120, stockCount := some 5 }]
        7
        { products := [{ id := 0, clover_id := some "c-1", raw_name := "old raw",
                         clean_name := some "Nike Dunk", clean_brand := some "Nike",
                         clean_model := some "Dunk", clean_size := some "10",
                         clean_colorway := some "Panda", product_type := some .sneaker,
                         price := some 100, stock_quantity := 2, is_normalized := true,
                         is_parent := false, last_synced := 0 }],
          variants := [], nextId := 10 }).products
      = [{ id := 0, clover_id := some "c-1", raw_name := "NIKE DUNK 10 PANDA",
           clean_name := some "Nike Dunk", clean_brand := some "Nike",
           clean_model := some "Dunk", clean_size := some "10",
           clean_colorway := some "Panda", product_type := some .sneaker,
           price := some 120, stock_quantity := 5, is_normalized := false,
           is_parent := false, last_synced := 7 }] := by
  decide

/-- Claim C3: after `updateParentStock` runs for a parent, the parent's
stored stock equals the sum of `stock_quantity` over its variants, for any
prior sequence of variant upserts, and running it again without intervening
variant changes leaves the stored value unchanged. -/
theorem c3_parent_stock_aggregate (upserts : List (VariantInsertP × Nat))
    (s0 : CatalogState) (s : CatalogState) (pid now now2 : Nat)
    (hs : s = upserts.foldl (fun st vn => insertVariant vn.1 vn.2 st) s0)
    (hp : s.products.filter (fun p => p.id == pid) ≠ []) :
    parentStoredStock pid (updateParentStock pid now s) = some (variantStockSum pid s)
      ∧ parentStoredStock pid (updateParentStock pid now2 (updateParentStock pid now s))
          = some (variantStockSum pid s) := by
  subst hs
  refine ⟨parentStoredStock_updateParentStock _ _ _ hp, ?_⟩
  rw [parentStoredStock_updateParentStock _ _ _ (updateParentStock_filter_ne _ _ _ hp),
    variantStockSum_updateParentStock]

/-- Claim C3 witness: a concrete parent with two variant upserts (the second
overwriting the first by `clover_item_id`, plus a distinct one). -/
theorem c3_parent_stock_aggregate_witness :
    parentStoredStock 1
        (updateParentStock 1 9
          ([({ product_id := 1, clover_item_id := some "v1", size := some "10",
               color := none, condition := none, variant_number := none,
               price := some 50, stock_quantity := (3 : Int) }, 5),
            ({ product_id := 1, clover_item_id := some "v2", size := some "11",
               color := none, condition := none, variant_number := none,
               price := some 55, stock_quantity := (4 : Int) }, 6)].foldl
            (fun st vn => insertVariant vn.1 vn.2 st)
            { products := [{ id := 1, clover_id := none, raw_name := "Nike Dunk",
                             clean_name := some "Nike Dunk", clean_brand := some "Nike",
                             clean_model := some "Dunk", clean_size := none,
                             clean_colorway := none, product_type := some .sneaker,
                             price := some 50, stock_quantity := 0, is_normalized := true,
                             is_parent := true, last_synced := 0 }],
              variants := [], nextId := 2 }))
      = some 7 := by
  have h := c3_parent_stock_aggregate
    [({ product_id := 1, clover_item_id := some "v1", size := some "10",
        color := none, condition := none, variant_number := none,
        price := some 50, stock_quantity := (3 : Int) }, 5),
     ({ product_id := 1, clover_item_id := some "v2", size := some "11",
        color := none, condition := none, variant_number := none,
        price := some 55, stock_quantity := (4 : Int) }, 6)]
    { products := [{ id := 1, clover_id := none, raw_name := "Nike Dunk",
                     clean_name := some "Nike Dunk", clean_brand := some "Nike",
                     clean_model := some "Dunk", clean_size := none,
                     clean_colorway := none, product_type := some .sneaker,
                     price := some 50, stock_quantity := 0, is_normalized := true,
                     is_parent := true, last_synced := 0 }],
      variants := [], nextId := 2 } _ 1 9 11 rfl (by decide)
  have h2 : variantStockSum 1
      ([({ product_id := 1, clover_item_id := some "v1", size := some "10",
           color := none, condition := none, variant_number := none,
           price := some 50, stock_quantity := (3 : Int) }, 5),
        ({ product_id := 1, clover_item_id := some "v2", size := some "11",
           color := none, condition := none, variant_number := none,
           price := some 55, stock_quantity := (4 : Int) }, 6)].foldl
        (fun st vn => insertVariant vn.1 vn.2 st)
        { products := [{ id := 1, clover_id := none, raw_name := "Nike Dunk",
                         clean_name := some "Nike Dunk", clean_brand := some "Nike",
                         clean_model := some "Dunk", clean_size := none,
                         clean_colorway := none, product_type := some .sneaker,
                         price := some 50, stock_quantity := 0, is_normalized := true,
                         is_parent := true, last_synced := 0 }],
          variants := [], nextId := 2 }) = 7 := by decide
  rw [← h2]
  exact h.1

lemma filter_map_comm {α : Type} (g : α → α) (q : α → Bool) (l : List α)
    (hq : ∀ a, q (g a) = q a) : (l.map g).filter q = (l.filter q).map g := by
  induction l with
  | nil => rfl
  | cons a t ih =>
      simp only [List.map_cons, List.filter_cons, hq]
      by_cases h : q a <;> simp [h, ih]

lemma filter_map_self {α : Type} (g : α → α) (q : α → Bool) (l : List α)
    (hq : ∀ a, q (g a) = q a) (hid : ∀ a ∈ l, q a = true → g a = a) :
    (l.map g).filter q = l.filter q := by
  rw [filter_map_comm g q l hq]
  calc (l.filter q).map g
      = (l.filter q).map id := List.map_congr_left (fun a ha =>
        hid a (List.mem_of_mem_filter ha) (List.of_mem_filter ha))
    _ = l.filter q := List.map_id _

lemma item_id_filter_singleton (l : List CartItemRow)
    (hnd : (l.map (fun i => i.id)).Nodup) (row : CartItemRow) (hmem : row ∈ l)
    (iid u : Nat) (hid : row.id = iid) (hcart : row.cartId = u) :
    l.filter (fun i => i.id == iid && i.cartId == u) = [row] := by
  induction l with
  | nil => cases hmem
  | cons a t ih =>
      simp only [List.map_cons, List.nodup_cons] at hnd
      obtain ⟨hna, hnt⟩ := hnd
      rcases List.mem_cons.mp hmem with h | hmt
      · subst h
        have hcond : (row.id == iid && row.cartId == u) = true := by simp [hid, hcart]
        rw [List.filter_cons, if_pos hcond]
        have hnil : t.filter (fun i => i.id == iid && i.cartId == u) = [] := by
          apply List.filter_eq_nil_iff.mpr
          intro x hx
          simp only [Bool.and_eq_true, beq_iff_eq, not_and]
          intro hxid
          exact absurd (List.mem_map.mpr ⟨x, hx, by rw [hxid, ← hid]⟩) hna
        rw [hnil]
      · have hcond : (a.id == iid && a.cartId == u) = false := by
          simp only [Bool.and_eq_false_iff, beq_eq_false_iff_ne, ne_eq]
          left
          intro haid
          exact hna (List.mem_map.mpr ⟨row, hmt, by rw [hid, ← haid]⟩)
        rw [List.filter_cons, if_neg (by simp [hcond])]
        exact ih hnt hmt

lemma touchCart_items (cid now : Nat) (s : CartState) :
    (touchCart cid now s).items = s.items := rfl

lemma touchCart_nextId (cid now : Nat) (s : CartState) :
    (touchCart cid now s).nextId = s.nextId := rfl

lemma touchCart_filter_ne (u now cid : Nat) (s : CartState) (hne : cid ≠ u) :
    (touchCart u now s).carts.filter (fun c => c.id == cid)
      = s.carts.filter (fun c => c.id == cid) := by
  unfold touchCart
  apply filter_map_self
  · intro c
    by_cases h : c.id == u <;> simp [h]
  · intro c _ hc
    have : c.id = cid := by simpa using hc
    rw [if_neg (by simp [this, hne])]

lemma touchCart_filter_u (u now : Nat) (s : CartState) :
    (touchCart u now s).carts.filter (fun c => c.id == u)
      = (s.carts.filter (fun c => c.id == u)).map (fun c => { c with updatedAt := now }) := by
  unfold touchCart
  rw [filter_map_comm]
  · apply List.map_congr_left
    intro c hc
    rw [if_pos (List.of_mem_filter hc)]
  · intro c
    by_cases h : c.id == u <;> simp [h]

lemma listQty_cons (pid : String) (p : CartItemView) (rest : List CartItemView) :
    listQty pid (p :: rest)
      = (if p.productId = pid then p.quantity else 0) + listQty pid rest := by
  unfold listQty
  rw [List.filter_cons]
  by_cases h : p.productId = pid
  · simp [h]
  · simp [h]

lemma mergeStep_update (L : CartLimits) (u : Nat) (uc : CartView) (now : Nat)
    (p : CartItemView) (rest : List CartItemView) (s : CartState)
    (inv : MergeInv L u uc (p :: rest) s) (eu : CartItemView)
    (hfind : uc.items.find? (fun it => it.productId == p.productId) = some eu) :
    ∃ s' v, updateCartItemQuantity L u eu.id (eu.quantity + p.quantity) now s = (s', .ok v)
      ∧ MergeInv L u uc rest s'
      ∧ (∀ pid, quantityOf u pid s'
          = quantityOf u pid s + (if p.productId = pid then p.quantity else 0))
      ∧ s'.items.filter (fun i => !(i.cartId == u)) = s.items.filter (fun i => !(i.cartId == u))
      ∧ (∀ cid, cid ≠ u →
          s'.carts.filter (fun c => c.id == cid) = s.carts.filter (fun c => c.id == cid)) := by
  obtain ⟨hcart, hnd, hlt, hrow, hnonew, hcount, hq12, hqeu, hpnd⟩ := inv
  have heumem : eu ∈ uc.items := List.mem_of_find?_eq_some hfind
  obtain ⟨row, hrmem, hrid, hrcart, hrpid, hrq, hrfil⟩ :=
    hrow p (List.mem_cons_self _ _) eu heumem hfind
  obtain ⟨h1p, h1m⟩ := hq12 p (List.mem_cons_self _ _)
  obtain ⟨heu1, heumax⟩ := hqeu p (List.mem_cons_self _ _) eu heumem hfind
  have hpos : ¬ (eu.quantity + p.quantity ≤ 0) := by omega
  have hmax : ¬ (eu.quantity + p.quantity > L.maxItemQuantity) := by omega
  have hfil2 : s.items.filter (fun i => i.id == eu.id && i.cartId == u) = [row] :=
    item_id_filter_singleton s.items hnd row hrmem eu.id u hrid hrcart
  -- the item update applied to the store
  set g : CartItemRow → CartItemRow := fun i =>
    if i.id == eu.id && i.cartId == u then { i with quantity := eu.quantity + p.quantity }
    else i with hg
  have hgid : ∀ i, (g i).id = i.id := by
    intro i
    simp only [hg]
    by_cases h : (i.id == eu.id && i.cartId == u) = true
    · rw [if_pos h]
    · rw [if_neg h]
  have hgcart : ∀ i, (g i).cartId = i.cartId := by
    intro i
    simp only [hg]
    by_cases h : (i.id == eu.id && i.cartId == u) = true
    · rw [if_pos h]
    · rw [if_neg h]
  have hgpid : ∀ i, (g i).productId = i.productId := by
    intro i
    simp only [hg]
    by_cases h : (i.id == eu.id && i.cartId == u) = true
    · rw [if_pos h]
    · rw [if_neg h]
  -- g is the identity away from `row`
  have hgother : ∀ x ∈ s.items, x ≠ row → g x = x := by
    intro x hx hxr
    simp only [hg]
    by_cases h : (x.id == eu.id && x.cartId == u) = true
    · exfalso
      have hxid : x.id = eu.id := by
        have h' := h
        simp only [Bool.and_eq_true, beq_iff_eq] at h'
        exact h'.1
      exact hxr (List.inj_on_of_nodup_map hnd hx hrmem (by rw [hxid, hrid]))
    · rw [if_neg h]
  have hgrow : g row = { row with quantity := eu.quantity + p.quantity } := by
    simp only [hg]
    rw [if_pos (by simp [hrid, hrcart])]
  refine ⟨touchCart u now { s with items := s.items.map g },
    { id := row.id, productId := row.productId, quantity := eu.quantity + p.quantity },
    ?_, ?_, ?_, ?_, ?_⟩
  · unfold updateCartItemQuantity
    rw [if_neg hpos, if_neg hmax, hfil2]
  · -- MergeInv is re-established for the remaining items
    refine ⟨?_, ?_, ?_, ?_, ?_, ?_, ?_, ?_, ?_⟩
    · obtain ⟨r, hrm, hrf⟩ := hcart
      have hmemf : r ∈ s.carts.filter (fun c => c.id == u) := by
        rw [hrf]; exact List.mem_singleton_self _
      have hru := List.of_mem_filter hmemf
      refine ⟨{ r with updatedAt := now }, ?_, ?_⟩
      · show { r with updatedAt := now } ∈ s.carts.map
          (fun c => if c.id == u then { c with updatedAt := now } else c)
        exact List.mem_map.mpr ⟨r, hrm, by rw [if_pos hru]⟩
      · rw [touchCart_filter_u]
        show (List.filter (fun c => c.id == u) s.carts).map _ = _
        rw [hrf]
        rfl
    · rw [touchCart_items]
      have : (s.items.map g).map (fun i => i.id) = s.items.map (fun i => i.id) := by
        rw [List.map_map]
        exact List.map_congr_left (fun a _ => hgid a)
      rw [this]; exact hnd
    · rw [touchCart_items, touchCart_nextId]
      intro i hi
      obtain ⟨x, hx, hxe⟩ := List.mem_map.mp hi
      rw [← hxe, hgid]
      exact hlt x hx
    · intro p' hp' eu' heu'mem hfind'
      obtain ⟨row', hrmem', hrid', hrcart', hrpid', hrq', hrfil'⟩ :=
        hrow p' (List.mem_cons_of_mem _ hp') eu' heu'mem hfind'
      have hpne : p'.productId ≠ p.productId := by
        intro he
        simp only [List.map_cons, List.nodup_cons] at hpnd
        exact hpnd.1 (List.mem_map.mpr ⟨p', hp', he⟩)
      have hrne : row' ≠ row := by
        intro he
        exact hpne (by rw [← hrpid', he, hrpid])
      have hgrow' : g row' = row' := hgother row' hrmem' hrne
      refine ⟨row', ?_, hrid', hrcart', hrpid', hrq', ?_⟩
      · rw [touchCart_items]
        exact List.mem_map.mpr ⟨row', hrmem', hgrow'⟩
      · rw [touchCart_items]
        rw [filter_map_comm g _ _ (fun a => by rw [hgcart, hgpid]), hrfil']
        simp [hgrow']
    · intro p' hp' hfind'
      rw [touchCart_items]
      rw [filter_map_comm g _ _ (fun a => by rw [hgcart, hgpid]),
        hnonew p' (List.mem_cons_of_mem _ hp') hfind']
      rfl
    · rw [touchCart_items]
      rw [filter_map_comm g _ _ (fun a => by rw [hgcart]), List.length_map]
      have hstep : ((p :: rest).filter (fun q =>
          (uc.items.find? (fun it => it.productId == q.productId)).isNone)).length
          = (rest.filter (fun q =>
            (uc.items.find? (fun it => it.productId == q.productId)).isNone)).length := by
        rw [List.filter_cons, if_neg (by simp [hfind])]
      omega
    · intro p' hp'
      exact hq12 p' (List.mem_cons_of_mem _ hp')
    · intro p' hp'
      exact hqeu p' (List.mem_cons_of_mem _ hp')
    · simp only [List.map_cons, List.nodup_cons] at hpnd
      exact hpnd.2
  · -- quantity accounting
    intro pid
    unfold quantityOf
    rw [touchCart_items]
    rw [filter_map_comm g _ _ (fun a => by rw [hgcart, hgpid])]
    by_cases hpid : p.productId = pid
    · rw [← hpid, hrfil]
      simp [hgrow, hrq]
    · have : (s.items.filter (fun i => i.cartId == u && i.productId == pid)).map g
          = s.items.filter (fun i => i.cartId == u && i.productId == pid) := by
        have : ∀ x ∈ s.items.filter (fun i => i.cartId == u && i.productId == pid), g x = x := by
          intro x hx
          apply hgother x (List.mem_of_mem_filter hx)
          intro he
          apply hpid
          have hxp : x.productId = pid := by
            have := List.of_mem_filter hx
            simp only [Bool.and_eq_true, beq_iff_eq] at this
            exact this.2
          rw [← hrpid, ← he, hxp]
        calc (s.items.filter (fun i => i.cartId == u && i.productId == pid)).map g
            = (s.items.filter (fun i => i.cartId == u && i.productId == pid)).map id :=
              List.map_congr_left (fun a ha => this a ha)
          _ = _ := List.map_id _
      rw [this]
      simp [hpid]
  · rw [touchCart_items]
    apply filter_map_self
    · intro a; rw [hgcart]
    · intro a ha hc
      apply hgother a ha
      intro he
      rw [he, hrcart] at hc
      simp at hc
  · intro cid hcid
    rw [touchCart_filter_ne u now cid _ hcid]

lemma mergeStep_insert (L : CartLimits) (u : Nat) (uc : CartView) (now : Nat)
    (p : CartItemView) (rest : List CartItemView) (s : CartState)
    (inv : MergeInv L u uc (p :: rest) s)
    (hfind : uc.items.find? (fun it => it.productId == p.productId) = none) :
    ∃ s' v, addItemToCart L u p.productId p.quantity now s = (s', .ok v)
      ∧ MergeInv L u uc rest s'
      ∧ (∀ pid, quantityOf u pid s'
          = quantityOf u pid s + (if p.productId = pid then p.quantity else 0))
      ∧ s'.items.filter (fun i => !(i.cartId == u)) = s.items.filter (fun i => !(i.cartId == u))
      ∧ (∀ cid, cid ≠ u →
          s'.carts.filter (fun c => c.id == cid) = s.carts.filter (fun c => c.id == cid)) := by
  obtain ⟨hcart, hnd, hlt, hrow, hnonew, hcount, hq12, hqeu, hpnd⟩ := inv
  obtain ⟨h1p, h1m⟩ := hq12 p (List.mem_cons_self _ _)
  have hempty : s.items.filter (fun i => i.cartId == u && i.productId == p.productId) = [] :=
    hnonew p (List.mem_cons_self _ _) hfind
  obtain ⟨r, hrm, hrf⟩ := hcart
  have hmemf : r ∈ s.carts.filter (fun c => c.id == u) := by
    rw [hrf]; exact List.mem_singleton_self _
  have hru := List.of_mem_filter hmemf
  have hruEq : r.id = u := by simpa using hru
  have hget : getCart u s = some (cartRowToView r s) := by
    unfold getCart; rw [hrf]
  have hv1 : ¬ (p.quantity ≤ 0) := by omega
  have hv2 : ¬ (p.quantity > L.maxItemQuantity) := by omega
  have hhead : (s.items.filter (fun i => i.cartId == u && i.productId == p.productId)).head?
      = none := by rw [hempty]; rfl
  have hnewcnt : ((p :: rest).filter (fun q =>
      (uc.items.find? (fun it => it.productId == q.productId)).isNone)).length
      = (rest.filter (fun q =>
        (uc.items.find? (fun it => it.productId == q.productId)).isNone)).length + 1 := by
    rw [List.filter_cons, if_pos (by simp [hfind])]
    rfl
  have hclen : (cartRowToView r s).items.length
      = (s.items.filter (fun i => i.cartId == u)).length := by
    unfold cartRowToView
    rw [List.length_map, hruEq]
  have hcnt : ¬ ((cartRowToView r s).items.length ≥ L.maxCartItems) := by
    rw [hclen]
    omega
  set newRow : CartItemRow :=
    { id := s.nextId, cartId := u, productId := p.productId, quantity := p.quantity }
    with hnew
  refine ⟨touchCart u now { s with items := s.items ++ [newRow], nextId := s.nextId + 1 },
    { id := s.nextId, productId := p.productId, quantity := p.quantity },
    ?_, ?_, ?_, ?_, ?_⟩
  · show addItemToCart L u p.productId p.quantity now s
      = (touchCart u now { s with items := s.items ++ [newRow], nextId := s.nextId + 1 },
         .ok { id := s.nextId, productId := p.productId, quantity := p.quantity })
    unfold addItemToCart
    rw [if_neg hv1, if_neg hv2, hget, hhead]
    show (if (cartRowToView r s).items.length ≥ L.maxCartItems then _ else _) = _
    rw [if_neg hcnt]
  · refine ⟨?_, ?_, ?_, ?_, ?_, ?_, ?_, ?_, ?_⟩
    · refine ⟨{ r with updatedAt := now }, ?_, ?_⟩
      · show { r with updatedAt := now } ∈ s.carts.map
          (fun c => if c.id == u then { c with updatedAt := now } else c)
        exact List.mem_map.mpr ⟨r, hrm, by rw [if_pos hru]⟩
      · rw [touchCart_filter_u]
        show (List.filter (fun c => c.id == u) s.carts).map _ = _
        rw [hrf]
        rfl
    · rw [touchCart_items]
      show ((s.items ++ [newRow]).map (fun i => i.id)).Nodup
      rw [List.map_append]
      refine List.Nodup.append hnd (List.nodup_singleton _) ?_
      intro a ha hb
      obtain ⟨x, hx, hxe⟩ := List.mem_map.mp ha
      have hax : a = s.nextId := by
        simpa [hnew] using hb
      have := hlt x hx
      omega
    · intro i hi
      rw [touchCart_items] at hi
      rw [touchCart_nextId]
      show i.id < s.nextId + 1
      rcases List.mem_append.mp hi with h | h
      · have := hlt i h
        omega
      · have hin : i = newRow := by simpa using h
        rw [hin, hnew]
        show s.nextId < s.nextId + 1
        omega
    · intro p' hp' eu' heu'mem hfind'
      obtain ⟨row', hrmem', hrid', hrcart', hrpid', hrq', hrfil'⟩ :=
        hrow p' (List.mem_cons_of_mem _ hp') eu' heu'mem hfind'
      have hpne : p'.productId ≠ p.productId := by
        intro he
        simp only [List.map_cons, List.nodup_cons] at hpnd
        exact hpnd.1 (List.mem_map.mpr ⟨p', hp', he⟩)
      refine ⟨row', ?_, hrid', hrcart', hrpid', hrq', ?_⟩
      · rw [touchCart_items]
        exact List.mem_append_left _ hrmem'
      · rw [touchCart_items]
        show (s.items ++ [newRow]).filter _ = [row']
        rw [List.filter_append, hrfil']
        have : ([newRow].filter (fun i => i.cartId == u && i.productId == p'.productId)) = [] := by
          simp [hnew, hpne.symm]
        rw [this, List.append_nil]
    · intro p' hp' hfind'
      rw [touchCart_items]
      show (s.items ++ [newRow]).filter _ = []
      have hpne : p'.productId ≠ p.productId := by
        intro he
        simp only [List.map_cons, List.nodup_cons] at hpnd
        exact hpnd.1 (List.mem_map.mpr ⟨p', hp', he⟩)
      rw [List.filter_append, hnonew p' (List.mem_cons_of_mem _ hp') hfind']
      simp [hnew, hpne.symm]
    · rw [touchCart_items]
      show ((s.items ++ [newRow]).filter (fun i => i.cartId == u)).length + _ ≤ _
      rw [List.filter_append]
      have : ([newRow].filter (fun i => i.cartId == u)) = [newRow] := by simp [hnew]
      rw [this, List.length_append]
      simp only [List.length_singleton]
      omega
    · intro p' hp'
      exact hq12 p' (List.mem_cons_of_mem _ hp')
    · intro p' hp'
      exact hqeu p' (List.mem_cons_of_mem _ hp')
    · simp only [List.map_cons, List.nodup_cons] at hpnd
      exact hpnd.2
  · intro pid
    unfold quantityOf
    rw [touchCart_items]
    show (((s.items ++ [newRow]).filter _).map _).sum = _
    rw [List.filter_append]
    by_cases hpid : p.productId = pid
    · have : ([newRow].filter (fun i => i.cartId == u && i.productId == pid)) = [newRow] := by
        simp [hnew, hpid]
      rw [this, List.map_append, List.sum_append]
      simp [hnew, hpid]
    · have : ([newRow].filter (fun i => i.cartId == u && i.productId == pid)) = [] := by
        simp [hnew, hpid]
      rw [this, List.append_nil]
      simp [hpid]
  · rw [touchCart_items]
    show (s.items ++ [newRow]).filter _ = _
    rw [List.filter_append]
    have : ([newRow].filter (fun i => !(i.cartId == u))) = [] := by simp [hnew]
    rw [this, List.append_nil]
  · intro cid hcid
    rw [touchCart_filter_ne u now cid _ hcid]

lemma mergeLoop_ok (L : CartLimits) (u : Nat) (uc : CartView) (now : Nat) :
    ∀ (sis : List CartItemView) (s : CartState), MergeInv L u uc sis s →
    ∃ sF, mergeCartsLoop L uc u now sis s = (sF, .ok ())
      ∧ (∀ pid, quantityOf u pid sF = quantityOf u pid s + listQty pid sis)
      ∧ sF.items.filter (fun i => !(i.cartId == u)) = s.items.filter (fun i => !(i.cartId == u))
      ∧ (∃ r ∈ sF.carts, sF.carts.filter (fun c => c.id == u) = [r])
      ∧ (∀ cid, cid ≠ u →
          sF.carts.filter (fun c => c.id == cid) = s.carts.filter (fun c => c.id == cid)) := by
  intro sis
  induction sis with
  | nil =>
      intro s inv
      exact ⟨s, rfl, fun pid => by simp [listQty], rfl, inv.1, fun cid h => rfl⟩
  | cons p rest ih =>
      intro s inv
      cases hfind : uc.items.find? (fun it => it.productId == p.productId) with
      | some eu =>
          obtain ⟨s', v, heq, inv', hq, hni, hco⟩ :=
            mergeStep_update L u uc now p rest s inv eu hfind
          obtain ⟨sF, hloop, hqF, hniF, hcsF, hcoF⟩ := ih s' inv'
          refine ⟨sF, ?_, ?_, ?_, hcsF, ?_⟩
          · show mergeCartsLoop L uc u now (p :: rest) s = (sF, .ok ())
            simp only [mergeCartsLoop, hfind]
            rw [heq]
            exact hloop
          · intro pid
            rw [hqF pid, hq pid, listQty_cons]
            ring
          · rw [hniF, hni]
          · intro cid h
            rw [hcoF cid h, hco cid h]
      | none =>
          obtain ⟨s', v, heq, inv', hq, hni, hco⟩ :=
            mergeStep_insert L u uc now p rest s inv hfind
          obtain ⟨sF, hloop, hqF, hniF, hcsF, hcoF⟩ := ih s' inv'
          refine ⟨sF, ?_, ?_, ?_, hcsF, ?_⟩
          · show mergeCartsLoop L uc u now (p :: rest) s = (sF, .ok ())
            simp only [mergeCartsLoop, hfind]
            rw [heq]
            exact hloop
          · intro pid
            rw [hqF pid, hq pid, listQty_cons]
            ring
          · rw [hniF, hni]
          · intro cid h
            rw [hcoF cid h, hco cid h]

lemma mergeLoop_err (L : CartLimits) (u : Nat) (uc : CartView) (now : Nat)
    (bad : CartItemView) (rest : List CartItemView) (eu : CartItemView)
    (hfind : uc.items.find? (fun it => it.productId == bad.productId) = some eu)
    (hover : eu.quantity + bad.quantity > L.maxItemQuantity) :
    ∀ (pre : List CartItemView) (s : CartState), MergeInv L u uc pre s →
    ∃ sE e, mergeCartsLoop L uc u now (pre ++ bad :: rest) s = (sE, .error e)
      ∧ (∀ pid, quantityOf u pid sE = quantityOf u pid s + listQty pid pre)
      ∧ sE.items.filter (fun i => !(i.cartId == u)) = s.items.filter (fun i => !(i.cartId == u))
      ∧ (∀ cid, cid ≠ u →
          sE.carts.filter (fun c => c.id == cid) = s.carts.filter (fun c => c.id == cid)) := by
  intro pre
  induction pre with
  | nil =>
      intro s _
      by_cases hneg : eu.quantity + bad.quantity ≤ 0
      · refine ⟨s, "Quantity must be a positive integer", ?_,
          fun pid => by simp [listQty], rfl, fun cid h => rfl⟩
        show mergeCartsLoop L uc u now ([] ++ bad :: rest) s = _
        rw [List.nil_append]
        simp only [mergeCartsLoop, hfind]
        unfold updateCartItemQuantity
        rw [if_pos hneg]
      · refine ⟨s, "Quantity cannot exceed MAX_ITEM_QUANTITY per item", ?_,
          fun pid => by simp [listQty], rfl, fun cid h => rfl⟩
        show mergeCartsLoop L uc u now ([] ++ bad :: rest) s = _
        rw [List.nil_append]
        simp only [mergeCartsLoop, hfind]
        unfold updateCartItemQuantity
        rw [if_neg hneg, if_pos hover]
  | cons p pre' ih =>
      intro s inv
      cases hfind' : uc.items.find? (fun it => it.productId == p.productId) with
      | some eu' =>
          obtain ⟨s', v, heq, inv', hq, hni, hco⟩ :=
            mergeStep_update L u uc now p pre' s inv eu' hfind'
          obtain ⟨sE, e, hloop, hqE, hniE, hcoE⟩ := ih s' inv'
          refine ⟨sE, e, ?_, ?_, ?_, ?_⟩
          · show mergeCartsLoop L uc u now ((p :: pre') ++ bad :: rest) s = (sE, .error e)
            rw [List.cons_append]
            simp only [mergeCartsLoop, hfind']
            rw [heq]
            exact hloop
          · intro pid
            rw [hqE pid, hq pid, listQty_cons]
            ring
          · rw [hniE, hni]
          · intro cid h
            rw [hcoE cid h, hco cid h]
      | none =>
          obtain ⟨s', v, heq, inv', hq, hni, hco⟩ :=
            mergeStep_insert L u uc now p pre' s inv hfind'
          obtain ⟨sE, e, hloop, hqE, hniE, hcoE⟩ := ih s' inv'
          refine ⟨sE, e, ?_, ?_, ?_, ?_⟩
          · show mergeCartsLoop L uc u now ((p :: pre') ++ bad :: rest) s = (sE, .error e)
            rw [List.cons_append]
            simp only [mergeCartsLoop, hfind']
            rw [heq]
            exact hloop
          · intro pid
            rw [hqE pid, hq pid, listQty_cons]
            ring
          · rw [hniE, hni]
          · intro cid h
            rw [hcoE cid h, hco cid h]

lemma filter_of_map {α β : Type} (f : α → β) (q : β → Bool) (l : List α) :
    (l.map f).filter q = (l.filter (fun a => q (f a))).map f := by
  induction l with
  | nil => rfl
  | cons a t ih =>
      simp only [List.map_cons, List.filter_cons]
      by_cases h : q (f a) <;> simp [h, ih]

lemma filter_not_filter_self {α : Type} (q : α → Bool) (l : List α) :
    (l.filter (fun a => !(q a))).filter q = [] := by
  rw [List.filter_filter]
  apply List.filter_eq_nil_iff.mpr
  intro a _
  simp

lemma filter_filter_not_same {α : Type} (q r : α → Bool) (l : List α)
    (h : ∀ a, r a = true → q a = false) :
    (l.filter (fun a => !(q a))).filter r = l.filter r := by
  rw [List.filter_filter]
  apply List.filter_congr
  intro a _
  by_cases hr : r a = true
  · rw [hr, h a hr]
    rfl
  · simp only [Bool.not_eq_true] at hr
    rw [hr]
    rfl

lemma listQty_view_list (u : Nat) (pid : String) (l : List CartItemRow) :
    listQty pid ((l.filter (fun i => i.cartId == u)).map
      (fun i => ({ id := i.id, productId := i.productId, quantity := i.quantity } : CartItemView)))
      = ((l.filter (fun i => i.cartId == u && i.productId == pid)).map
          (fun i => i.quantity)).sum := by
  unfold listQty
  rw [filter_of_map, List.map_map, List.filter_filter]
  have hpred : ∀ a ∈ l, ((fun i =>
        (({ id := i.id, productId := i.productId, quantity := i.quantity } : CartItemView).productId
          == pid)) a && a.cartId == u)
      = (a.cartId == u && a.productId == pid) := by
    intro a _
    show (a.productId == pid && a.cartId == u) = (a.cartId == u && a.productId == pid)
    rw [Bool.and_comm]
  rw [List.filter_congr hpred]
  rfl

lemma listQty_view (u : Nat) (pid : String) (s : CartState) :
    listQty pid ((s.items.filter (fun i => i.cartId == u)).map
      (fun i => ({ id := i.id, productId := i.productId, quantity := i.quantity } : CartItemView)))
      = quantityOf u pid s :=
  listQty_view_list u pid s.items

lemma getCart_view (u : Nat) (s : CartState) (v : CartView) (h : getCart u s = some v) :
    v.id = u ∧ v.items = (s.items.filter (fun i => i.cartId == u)).map
      (fun i => ({ id := i.id, productId := i.productId, quantity := i.quantity } : CartItemView)) := by
  unfold getCart at h
  cases hf : s.carts.filter (fun c => c.id == u) with
  | nil => rw [hf] at h; cases h
  | cons c t =>
      cases t with
      | nil =>
          rw [hf] at h
          have hcu : c.id = u := by
            have : c ∈ s.carts.filter (fun c => c.id == u) := by
              rw [hf]; exact List.mem_singleton_self _
            simpa using List.of_mem_filter this
          have hv : cartRowToView c s = v := by
            simpa using h
          constructor
          · rw [← hv]
            exact hcu
          · rw [← hv]
            unfold cartRowToView
            rw [hcu]
      | cons c' t' => rw [hf] at h; cases h

/-- Claim C2 (amended): merging a session cart into a user cart, when every
combined per-product quantity stays within `MAX_ITEM_QUANTITY` and the
distinct products of both carts fit within `MAX_CART_ITEMS`, yields the user
cart holding the per-product sum of both carts' quantities, and the session
cart and its items no longer exist. -/
theorem c2_merge_carts_sums (L : CartLimits) (sc u now : Nat) (s : CartState)
    (scv ucv : CartView)
    (hne : sc ≠ u)
    (hsc : getCart sc s = some scv)
    (huc : getCart u s = some ucv)
    (hinv : MergeInv L u ucv scv.items s) :
    ∃ s3 merged, mergeCarts L sc u now s = (s3, .ok merged)
      ∧ merged.id = u
      ∧ (∀ pid, listQty pid merged.items = listQty pid ucv.items + listQty pid scv.items)
      ∧ s3.carts.filter (fun c => c.id == sc) = []
      ∧ s3.items.filter (fun i => i.cartId == sc) = [] := by
  obtain ⟨hucid, hucitems⟩ := getCart_view u s ucv huc
  obtain ⟨hscid, hscitems⟩ := getCart_view sc s scv hsc
  have hu_of : ∀ pid, listQty pid ucv.items = quantityOf u pid s := by
    intro pid
    rw [hucitems, listQty_view]
  by_cases hempty : scv.items.isEmpty
  · -- empty session cart: only the cart row is deleted (it has no items)
    have hnil : scv.items = [] := List.isEmpty_iff.mp hempty
    have hitemsnil : s.items.filter (fun i => i.cartId == sc) = [] := by
      have := hscitems
      rw [hnil] at this
      exact (List.map_eq_nil_iff.mp this.symm)
    refine ⟨{ s with carts := s.carts.filter (fun c => !(c.id == sc)) }, ucv, ?_, hucid, ?_, ?_, ?_⟩
    · simp only [mergeCarts, hsc, huc]
      rw [if_pos hempty]
    · intro pid
      rw [hnil]
      simp [listQty]
    · show (s.carts.filter (fun c => !(c.id == sc))).filter (fun c => c.id == sc) = []
      exact filter_not_filter_self _ _
    · exact hitemsnil
  · obtain ⟨sF, hloop, hqF, hniF, ⟨r, hrm, hrf⟩, hcoF⟩ :=
      mergeLoop_ok L u ucv now scv.items s hinv
    have hrid : r.id = u := by
      have : r ∈ sF.carts.filter (fun c => c.id == u) := by
        rw [hrf]; exact List.mem_singleton_self _
      simpa using List.of_mem_filter this
    set s3 : CartState :=
      { carts := sF.carts.filter (fun c => !(c.id == sc))
        items := sF.items.filter (fun i => !(i.cartId == sc))
        nextId := sF.nextId } with hs3
    have hs3carts : s3.carts = sF.carts.filter (fun c => !(c.id == sc)) := by rw [hs3]
    have hs3items : s3.items = sF.items.filter (fun i => !(i.cartId == sc)) := by rw [hs3]
    have hfilu : s3.carts.filter (fun c => c.id == u) = [r] := by
      rw [hs3carts, filter_filter_not_same _ _ _ ?_, hrf]
      intro a ha
      have : a.id = u := by simpa using ha
      simp [this, Ne.symm hne]
    have hget3 : getCart u s3 = some (cartRowToView r s3) := by
      unfold getCart
      rw [hfilu]
    refine ⟨s3, cartRowToView r s3, ?_, hrid, ?_, ?_, ?_⟩
    · simp only [mergeCarts, hsc, huc]
      rw [if_neg hempty, hloop]
      show (match getCart u s3 with
            | some merged => (s3, Except.ok merged)
            | none => (s3, Except.error "Failed to retrieve merged cart")) = _
      rw [hget3]
    · intro pid
      have hmi : (cartRowToView r s3).items = (s3.items.filter (fun i => i.cartId == u)).map
          (fun i => ({ id := i.id, productId := i.productId, quantity := i.quantity } : CartItemView)) := by
        unfold cartRowToView
        rw [hrid]
      rw [hmi, listQty_view]
      have hq3 : quantityOf u pid s3 = quantityOf u pid sF := by
        unfold quantityOf
        rw [hs3items, filter_filter_not_same _ _ _ ?_]
        intro a ha
        have : a.cartId = u := by
          have := ha
          simp only [Bool.and_eq_true, beq_iff_eq] at this
          exact this.1
        simp [this, Ne.symm hne]
      rw [hq3, hqF pid, hu_of pid]
    · rw [hs3carts]
      exact filter_not_filter_self _ _
    · rw [hs3items]
      exact filter_not_filter_self _ _

/-- Claim C2 counterexample: with `MAX_CART_ITEMS = 1`, a session cart
`{A: 1}` and a user cart `{B: 1}` have no combined per-product quantity
anywhere near `MAX_ITEM_QUANTITY = 10`, yet `mergeCarts` fails (inserting A
into the full user cart trips the `MAX_CART_ITEMS` check), so the claim as
stated — merge succeeds for any two carts whenever no combined quantity
exceeds `MAX_ITEM_QUANTITY` — is false. -/
theorem c2_merge_full_cart_fails :
    mergeCarts
        { maxCartItems := 1, maxItemQuantity := 10, maxCartsPerUser := 3, maxSessionCarts := 3 }
        1 2 99
        { carts := [{ id := 1, userId := none, sessionId := some "s",
                      createdAt := 0, updatedAt := 0 },
                    { id := 2, userId := some "u", sessionId := none,
                      createdAt := 0, updatedAt := 0 }],
          items := [{ id := 3, cartId := 1, productId := "A", quantity := 1 },
                    { id := 4, cartId := 2, productId := "B", quantity := 1 }],
          nextId := 5 }
      = ({ carts := [{ id := 1, userId := none, sessionId := some "s",
                       createdAt := 0, updatedAt := 0 },
                     { id := 2, userId := some "u", sessionId := none,
                       createdAt := 0, updatedAt := 0 }],
           items := [{ id := 3, cartId := 1, productId := "A", quantity := 1 },
                     { id := 4, cartId := 2, productId := "B", quantity := 1 }],
           nextId := 5 },
         .error "Cart cannot have more than MAX_CART_ITEMS items") := by
  rfl

/-- Claim C2 witness (the spec's own example): merging session `{A: 2}` into
user `{A: 1, B: 3}` yields one user cart with `{A: 3, B: 3}` and the session
cart gone. -/
theorem c2_merge_carts_sums_witness :
    ∃ s3 merged, mergeCarts
        { maxCartItems := 50, maxItemQuantity := 10, maxCartsPerUser := 3, maxSessionCarts := 3 }
        1 2 99
        { carts := [{ id := 1, userId := none, sessionId := some "s",
                      createdAt := 0, updatedAt := 0 },
                    { id := 2, userId := some "u", sessionId := none,
                      createdAt := 0, updatedAt := 0 }],
          items := [{ id := 3, cartId := 1, productId := "A", quantity := 2 },
                    { id := 4, cartId := 2, productId := "A", quantity := 1 },
                    { id := 5, cartId := 2, productId := "B", quantity := 3 }],
          nextId := 6 }
      = (s3, .ok merged)
      ∧ merged.id = 2
      ∧ (∀ pid, listQty pid merged.items
          = listQty pid [({ id := 4, productId := "A", quantity := 1 } : CartItemView),
                         { id := 5, productId := "B", quantity := 3 }]
            + listQty pid [({ id := 3, productId := "A", quantity := 2 } : CartItemView)])
      ∧ s3.carts.filter (fun c => c.id == 1) = []
      ∧ s3.items.filter (fun i => i.cartId == 1) = [] := by
  have h := c2_merge_carts_sums
    { maxCartItems := 50, maxItemQuantity := 10, maxCartsPerUser := 3, maxSessionCarts := 3 }
    1 2 99
    { carts := [{ id := 1, userId := none, sessionId := some "s",
                  createdAt := 0, updatedAt := 0 },
                { id := 2, userId := some "u", sessionId := none,
                  createdAt := 0, updatedAt := 0 }],
      items := [{ id := 3, cartId := 1, productId := "A", quantity := 2 },
                { id := 4, cartId := 2, productId := "A", quantity := 1 },
                { id := 5, cartId := 2, productId := "B", quantity := 3 }],
      nextId := 6 }
    { id := 1, userId := none, sessionId := some "s",
      items := [{ id := 3, productId := "A", quantity := 2 }],
      createdAt := 0, updatedAt := 0 }
    { id := 2, userId := some "u", sessionId := none,
      items := [{ id := 4, productId := "A", quantity := 1 },
                { id := 5, productId := "B", quantity := 3 }],
      createdAt := 0, updatedAt := 0 }
    (by decide) (by decide) (by decide) (by unfold MergeInv; decide)
  exact h

/-- Claim C10: when a session item's quantity combined with the user cart's
snapshot quantity exceeds `MAX_ITEM_QUANTITY`, `mergeCarts` propagates the
error before the post-loop deletes, so the session cart row and all its
items still exist — while the session items processed before the failing one
have already been applied to the user cart (the merge is not atomic on
error). -/
theorem c10_merge_not_atomic (L : CartLimits) (sc u now : Nat) (s : CartState)
    (scv ucv : CartView) (pre : List CartItemView) (bad : CartItemView)
    (rest : List CartItemView) (eu : CartItemView)
    (hne : sc ≠ u)
    (hsc : getCart sc s = some scv)
    (huc : getCart u s = some ucv)
    (hsplit : scv.items = pre ++ bad :: rest)
    (hinv : MergeInv L u ucv pre s)
    (hfind : ucv.items.find? (fun it => it.productId == bad.productId) = some eu)
    (hover : eu.quantity + bad.quantity > L.maxItemQuantity) :
    ∃ sE e, mergeCarts L sc u now s = (sE, .error e)
      ∧ sE.carts.filter (fun c => c.id == sc) = s.carts.filter (fun c => c.id == sc)
      ∧ sE.items.filter (fun i => i.cartId == sc) = s.items.filter (fun i => i.cartId == sc)
      ∧ (∀ pid, quantityOf u pid sE = quantityOf u pid s + listQty pid pre) := by
  obtain ⟨sE, e, hloop, hqE, hniE, hcoE⟩ :=
    mergeLoop_err L u ucv now bad rest eu hfind hover pre s hinv
  have hnonempty : ¬ (scv.items.isEmpty = true) := by
    rw [hsplit]
    cases pre <;> simp
  have hsamecart : ∀ (a : CartItemRow), (a.cartId == sc) = true → (a.cartId == u) = false := by
    intro a ha
    have : a.cartId = sc := by simpa using ha
    simp [this, Ne.symm (Ne.symm hne)]
  refine ⟨sE, e, ?_, hcoE sc hne, ?_, hqE⟩
  · simp only [mergeCarts, hsc, huc]
    rw [if_neg hnonempty, hsplit, hloop]
  · have h1 : sE.items.filter (fun i => i.cartId == sc)
        = (sE.items.filter (fun i => !(i.cartId == u))).filter (fun i => i.cartId == sc) :=
      (filter_filter_not_same _ _ _ hsamecart).symm
    rw [h1, hniE, filter_filter_not_same _ _ _ hsamecart]

/-- Claim C10 witness: session cart `{A: 2, B: 9}` merged into user cart
`{A: 1, B: 3}` with `MAX_ITEM_QUANTITY = 10`: A merges (1+2=3), then B
overflows (3+9=12), the call errors, the session cart and both its items
survive, and the user cart already holds the merged A quantity. -/
theorem c10_merge_not_atomic_witness :
    ∃ sE e, mergeCarts
        { maxCartItems := 50, maxItemQuantity := 10, maxCartsPerUser := 3, maxSessionCarts := 3 }
        1 2 99
        { carts := [{ id := 1, userId := none, sessionId := some "s",
                      createdAt := 0, updatedAt := 0 },
                    { id := 2, userId := some "u", sessionId := none,
                      createdAt := 0, updatedAt := 0 }],
          items := [{ id := 3, cartId := 1, productId := "A", quantity := 2 },
                    { id := 6, cartId := 1, productId := "B", quantity := 9 },
                    { id := 4, cartId := 2, productId := "A", quantity := 1 },
                    { id := 5, cartId := 2, productId := "B", quantity := 3 }],
          nextId := 7 }
      = (sE, .error e)
      ∧ sE.carts.filter (fun c => c.id == 1)
          = [{ id := 1, userId := none, sessionId := some "s", createdAt := 0, updatedAt := 0 }]
      ∧ sE.items.filter (fun i => i.cartId == 1)
          = [{ id := 3, cartId := 1, productId := "A", quantity := 2 },
             { id := 6, cartId := 1, productId := "B", quantity := 9 }]
      ∧ (∀ pid, quantityOf 2 pid sE
          = quantityOf 2 pid
              { carts := [{ id := 1, userId := none, sessionId := some "s",
                            createdAt := 0, updatedAt := 0 },
                          { id := 2, userId := some "u", sessionId := none,
                            createdAt := 0, updatedAt := 0 }],
                items := [{ id := 3, cartId := 1, productId := "A", quantity := 2 },
                          { id := 6, cartId := 1, productId := "B", quantity := 9 },
                          { id := 4, cartId := 2, productId := "A", quantity := 1 },
                          { id := 5, cartId := 2, productId := "B", quantity := 3 }],
                nextId := 7 }
            + listQty pid [({ id := 3, productId := "A", quantity := 2 } : CartItemView)]) := by
  obtain ⟨sE, e, h1, h2, h3, h4⟩ := c10_merge_not_atomic
    { maxCartItems := 50, maxItemQuantity := 10, maxCartsPerUser := 3, maxSessionCarts := 3 }
    1 2 99
    { carts := [{ id := 1, userId := none, sessionId := some "s",
                  createdAt := 0, updatedAt := 0 },
                { id := 2, userId := some "u", sessionId := none,
                  createdAt := 0, updatedAt := 0 }],
      items := [{ id := 3, cartId := 1, productId := "A", quantity := 2 },
                { id := 6, cartId := 1, productId := "B", quantity := 9 },
                { id := 4, cartId := 2, productId := "A", quantity := 1 },
                { id := 5, cartId := 2, productId := "B", quantity := 3 }],
      nextId := 7 }
    { id := 1, userId := none, sessionId := some "s",
      items := [{ id := 3, productId := "A", quantity := 2 },
                { id := 6, productId := "B", quantity := 9 }],
      createdAt := 0, updatedAt := 0 }
    { id := 2, userId := some "u", sessionId := none,
      items := [{ id := 4, productId := "A", quantity := 1 },
                { id := 5, productId := "B", quantity := 3 }],
      createdAt := 0, updatedAt := 0 }
    [{ id := 3, productId := "A", quantity := 2 }]
    { id := 6, productId := "B", quantity := 9 }
    []
    { id := 5, productId := "B", quantity := 3 }
    (by decide) (by decide) (by decide) (by decide) (by unfold MergeInv; decide) (by decide)
    (by decide)
  exact ⟨sE, e, h1, by rw [h2]; rfl, by rw [h3]; rfl, h4⟩

/-- Claim C4: two raw rows in one normalization batch that classify to the
same (brand, model) — with different Clover ids, hence different
colorway/size — produce exactly one Parent and two Variants: the parent
lookup is re-executed per row, so the second row finds the Parent the first
row created. -/
theorem c4_same_parent_no_duplicate (classify : String → ClassifyOutcome)
    (batchSize now n0 : Nat) (r1 r2 : NProduct) (d1 d2 : CleanedProductData)
    (c1 c2 : String) (out : NormOutcome)
    (hout : out = normalizeUnnormalizedProducts classify batchSize now
      { products := [r1, r2], variants := [], nextId := n0 })
    (hbatch : 2 ≤ batchSize)
    (h1n : r1.is_normalized = false) (h1s : r1.stock_quantity > 0)
    (h1c : r1.clover_id = some c1) (h1p : r1.is_parent = false)
    (h2n : r2.is_normalized = false) (h2s : r2.stock_quantity > 0)
    (h2c : r2.clover_id = some c2) (h2p : r2.is_parent = false)
    (hcc : c1 ≠ c2)
    (hid1 : r1.id < n0) (hid2 : r2.id < n0)
    (hcl1 : classify r1.raw_name = .ok (some d1))
    (hcl2 : classify r2.raw_name = .ok (some d2))
    (hc1 : d1.confidence ≠ .low) (hc2 : d2.confidence ≠ .low)
    (hbr : d2.brand = d1.brand) (hmo : d2.model = d1.model) :
    ∃ parent, out.state.products.filter (fun p => p.is_parent) = [parent]
      ∧ parent.clean_brand = some d1.brand
      ∧ parent.clean_model = some d1.model
      ∧ out.state.variants.map (fun v => (v.clover_item_id, v.product_id))
          = [(some c1, parent.id), (some c2, parent.id)] := by
  subst hout
  have hlen : ([r1, r2] : List NProduct).length ≤ batchSize := by simpa using hbatch
  have ha : getUnnormalizedProducts batchSize
      { products := [r1, r2], variants := [], nextId := n0 } = [r1, r2] := by
    unfold getUnnormalizedProducts
    have hfil : List.filter (fun p => !p.is_normalized && decide (p.stock_quantity > 0))
        [r1, r2] = [r1, r2] := by
      simp [h1n, h2n, h1s, h2s]
    show ([r1, r2].filter (fun p => !p.is_normalized && decide (p.stock_quantity > 0))).take
        batchSize = [r1, r2]
    rw [hfil, List.take_of_length_le hlen]
  have hc1' : (d1.confidence == Confidence.low) = false := beq_eq_false_iff_ne.mpr hc1
  have hc2' : (d2.confidence == Confidence.low) = false := beq_eq_false_iff_ne.mpr hc2
  have hne1 : (r1.id == n0) = false := beq_eq_false_iff_ne.mpr (Nat.ne_of_lt hid1)
  have hne2 : (r2.id == n0) = false := beq_eq_false_iff_ne.mpr (Nat.ne_of_lt hid2)
  have hcc' : (c2 == c1) = false := beq_eq_false_iff_ne.mpr (Ne.symm hcc)
  have hcc2 : (c1 == c2) = false := beq_eq_false_iff_ne.mpr hcc
  have hne1p : ¬ (r1.id = n0) := Nat.ne_of_lt hid1
  have hne2p : ¬ (r2.id = n0) := Nat.ne_of_lt hid2
  have hccp : ¬ (c2 = c1) := Ne.symm hcc
  simp only [normalizeUnnormalizedProducts, ha]
  simp only [List.isEmpty_cons, Bool.false_eq_true, if_false, ite_false]
  simp [normalizeLoop, processRow, fallbackRow, findParentProduct, upsertProduct,
    cloverConflict, insertedProduct, insertVariant, variantConflict, updateParentStock,
    updateProductByCloverById, applyProductUpdate, emptyProductUpdate, updField, orUndef,
    fallbackPayload, successPayload, parentPayload, variantPayload,
    hcl1, hcl2, hc1', hc2', h1c, h2c, h1p, h2p, h1n, h2n, hne1, hne2, hcc', hcc2, hbr, hmo,
    hne1p, hne2p, hccp, hcc]

/-- Claim C4 witness: two Nike Dunk rows (sizes 7y/8y, colors Panda/Bred)
normalized in one batch yield one parent and two variants. -/
theorem c4_same_parent_no_duplicate_witness :
    ∃ parent, (normalizeUnnormalizedProducts
        (fun name =>
          if name == "NIKE DUNK 7Y PANDA" then
            .ok (some { cleanedName := "Nike Dunk Panda", brand := "Nike", model := "Dunk",
                        productType := .sneaker, size := some "7y", colorway := some "Panda",
                        condition := none, variantNumber := none, confidence := .high })
          else if name == "NIKE DUNK 8Y BRED" then
            .ok (some { cleanedName := "Nike Dunk Bred", brand := "Nike", model := "Dunk",
                        productType := .sneaker, size := some "8y", colorway := some "Bred",
                        condition := none, variantNumber := none, confidence := .high })
          else .ok none)
        20 7
        { products := [{ id := 0, clover_id := some "c1", raw_name := "NIKE DUNK 7Y PANDA",
                         clean_name := none, clean_brand := none, clean_model := none,
                         clean_size := none, clean_colorway := none, product_type := none,
                         price := some 100, stock_quantity := 2, is_normalized := false,
                         is_parent := false, last_synced := 0 },
                       { id := 1, clover_id := some "c2", raw_name := "NIKE DUNK 8Y BRED",
                         clean_name := none, clean_brand := none, clean_model := none,
                         clean_size := none, clean_colorway := none, product_type := none,
                         price := some 110, stock_quantity := 3, is_normalized := false,
                         is_parent := false, last_synced := 0 }],
          variants := [], nextId := 2 }).state.products.filter (fun p => p.is_parent)
        = [parent]
      ∧ parent.clean_brand = some "Nike"
      ∧ parent.clean_model = some "Dunk"
      ∧ (normalizeUnnormalizedProducts
        (fun name =>
          if name == "NIKE DUNK 7Y PANDA" then
            .ok (some { cleanedName := "Nike Dunk Panda", brand := "Nike", model := "Dunk",
                        productType := .sneaker, size := some "7y", colorway := some "Panda",
                        condition := none, variantNumber := none, confidence := .high })
          else if name == "NIKE DUNK 8Y BRED" then
            .ok (some { cleanedName := "Nike Dunk Bred", brand := "Nike", model := "Dunk",
                        productType := .sneaker, size := some "8y", colorway := some "Bred",
                        condition := none, variantNumber := none, confidence := .high })
          else .ok none)
        20 7
        { products := [{ id := 0, clover_id := some "c1", raw_name := "NIKE DUNK 7Y PANDA",
                         clean_name := none, clean_brand := none, clean_model := none,
                         clean_size := none, clean_colorway := none, product_type := none,
                         price := some 100, stock_quantity := 2, is_normalized := false,
                         is_parent := false, last_synced := 0 },
                       { id := 1, clover_id := some "c2", raw_name := "NIKE DUNK 8Y BRED",
                         clean_name := none, clean_brand := none, clean_model := none,
                         clean_size := none, clean_colorway := none, product_type := none,
                         price := some 110, stock_quantity := 3, is_normalized := false,
                         is_parent := false, last_synced := 0 }],
          variants := [], nextId := 2 }).state.variants.map
          (fun v => (v.clover_item_id, v.product_id))
        = [(some "c1", parent.id), (some "c2", parent.id)] :=
  c4_same_parent_no_duplicate
    (fun name =>
      if name == "NIKE DUNK 7Y PANDA" then
        .ok (some { cleanedName := "Nike Dunk Panda", brand := "Nike", model := "Dunk",
                    productType := .sneaker, size := some "7y", colorway := some "Panda",
                    condition := none, variantNumber := none, confidence := .high })
      else if name == "NIKE DUNK 8Y BRED" then
        .ok (some { cleanedName := "Nike Dunk Bred", brand := "Nike", model := "Dunk",
                    productType := .sneaker, size := some "8y", colorway := some "Bred",
                    condition := none, variantNumber := none, confidence := .high })
      else .ok none)
    20 7 2
    { id := 0, clover_id := some "c1", raw_name := "NIKE DUNK 7Y PANDA",
      clean_name := none, clean_brand := none, clean_model := none,
      clean_size := none, clean_colorway := none, product_type := none,
      price := some 100, stock_quantity := 2, is_normalized := false,
      is_parent := false, last_synced := 0 }
    { id := 1, clover_id := some "c2", raw_name := "NIKE DUNK 8Y BRED",
      clean_name := none, clean_brand := none, clean_model := none,
      clean_size := none, clean_colorway := none, product_type := none,
      price := some 110, stock_quantity := 3, is_normalized := false,
      is_parent := false, last_synced := 0 }
    { cleanedName := "Nike Dunk Panda", brand := "Nike", model := "Dunk",
      productType := .sneaker, size := some "7y", colorway := some "Panda",
      condition := none, variantNumber := none, confidence := .high }
    { cleanedName := "Nike Dunk Bred", brand := "Nike", model := "Dunk",
      productType := .sneaker, size := some "8y", colorway := some "Bred",
      condition := none, variantNumber := none, confidence := .high }
    "c1" "c2" _ rfl
    (by decide) (by decide) (by decide) (by decide) (by decide) (by decide) (by decide)
    (by decide) (by decide) (by decide) (by decide) (by decide) (by decide) (by decide)
    (by decide) (by decide) (by decide) (by decide)

lemma insertVariant_products (ins : VariantInsertP) (now : Nat) (s : CatalogState) :
    (insertVariant ins now s).products = s.products := by
  unfold insertVariant
  split <;> rfl

lemma updateProductByCloverById_fst (c : String) (u : ProductUpdateP) (now : Nat)
    (s : CatalogState) :
    (updateProductByCloverById c u now s).1
      = { s with products := s.products.map (fun p =>
          if p.clover_id == some c then applyProductUpdate p u now else p) } := by
  unfold updateProductByCloverById
  cases h : s.products.filter (fun p => p.clover_id == some c) with
  | nil => rfl
  | cons a t =>
      cases t with
      | nil => rfl
      | cons b t2 => rfl

lemma cloverMark_stock_update (c : String) (pid now : Nat) (s : CatalogState) :
    cloverMark c (updateParentStock pid now s) = cloverMark c s := by
  unfold cloverMark updateParentStock
  rw [filter_map_comm _ _ _ (fun a => by by_cases h : a.id = pid <;> simp [h])]
  rw [List.map_map]
  apply List.map_congr_left
  intro a _
  by_cases h : a.id = pid <;> simp [h]

lemma cloverMark_update_other (c cq : String) (u : ProductUpdateP) (now : Nat)
    (s : CatalogState) (hne : cq ≠ c) :
    cloverMark c (updateProductByCloverById cq u now s).1 = cloverMark c s := by
  rw [updateProductByCloverById_fst]
  unfold cloverMark
  have hfil : (s.products.map (fun p =>
      if p.clover_id == some cq then applyProductUpdate p u now else p)).filter
        (fun p => p.clover_id == some c)
      = s.products.filter (fun p => p.clover_id == some c) := by
    apply filter_map_self
    · intro a
      by_cases h : (a.clover_id == some cq) = true <;> simp [h, applyProductUpdate]
    · intro a _ ha
      have h2 : a.clover_id = some c := by simpa using ha
      rw [if_neg (show ¬ ((a.clover_id == some cq) = true) by
        simp [h2]
        exact Ne.symm hne)]
  exact congrArg _ hfil

lemma cloverMark_append_parent (c : String) (row : NProduct) (s : CatalogState)
    (vars : List NVariant) (m : Nat) (h : row.clover_id = none) :
    cloverMark c { products := s.products ++ [row], variants := vars, nextId := m }
      = cloverMark c s := by
  unfold cloverMark
  show ((s.products ++ [row]).filter _).map _ = (s.products.filter _).map _
  rw [List.filter_append]
  have : [row].filter (fun p => p.clover_id == some c) = [] := by simp [h]
  rw [this, List.append_nil]

lemma cloverMark_insertVariant (c : String) (ins : VariantInsertP) (now : Nat)
    (s : CatalogState) : cloverMark c (insertVariant ins now s) = cloverMark c s := by
  unfold cloverMark
  rw [insertVariant_products]

lemma upsertProduct_none (ins : ProductInsertP) (now : Nat) (s : CatalogState)
    (h : ins.clover_id = none) :
    upsertProduct ins now s
      = (insertedProduct ins s.nextId now,
         { s with products := s.products ++ [insertedProduct ins s.nextId now],
                  nextId := s.nextId + 1 }) := by
  unfold upsertProduct
  have hfil : s.products.filter (fun p => cloverConflict ins p) = [] := by
    apply List.filter_eq_nil_iff.mpr
    intro p _
    unfold cloverConflict
    rw [h]
    simp
  rw [hfil]
  rfl

lemma fallbackRow_mark_other (c : String) (q : NProduct) (now : Nat) (s : CatalogState)
    (hq : q.clover_id ≠ some c) :
    cloverMark c (fallbackRow q now s).1 = cloverMark c s := by
  unfold fallbackRow
  cases hcq : q.clover_id with
  | none => rfl
  | some cq =>
      have hne : cq ≠ c := fun he => hq (by rw [hcq, he])
      show cloverMark c (match updateProductByCloverById cq (fallbackPayload q) now s with
        | (s', .ok _) => (s', (Except.ok false : Except String Bool))
        | (s', .error e) => (s', Except.error e)).1 = cloverMark c s
      cases hupd : updateProductByCloverById cq (fallbackPayload q) now s with
      | mk s' e =>
          have hm : cloverMark c s' = cloverMark c s := by
            have h5 := cloverMark_update_other c cq (fallbackPayload q) now s hne
            rw [hupd] at h5
            exact h5
          cases e with
          | ok v => exact hm
          | error msg => exact hm

lemma processRow_mark_other (classify : String → ClassifyOutcome) (now : Nat)
    (q : NProduct) (s : CatalogState) (c : String) (hq : q.clover_id ≠ some c) :
    cloverMark c (processRow classify now q s).1 = cloverMark c s := by
  cases hcl : classify q.raw_name with
  | thrown msg =>
      simp only [processRow, hcl]
  | ok aiResult =>
      cases aiResult with
      | none =>
          simp only [processRow, hcl]
          exact fallbackRow_mark_other c q now s hq
      | some d =>
          by_cases hlow : (d.confidence == Confidence.low) = true
          · simp only [processRow, hcl, hlow, if_true]
            exact fallbackRow_mark_other c q now s hq
          · simp only [processRow, hcl]
            rw [if_neg hlow]
            have tail : ∀ pid : Nat, ∀ s1 : CatalogState,
                cloverMark c s1 = cloverMark c s →
                cloverMark c ((match q.clover_id with
                  | none =>
                      (updateParentStock pid now
                        (insertVariant (variantPayload d q pid) now s1),
                       (Except.error
                         "JSON object requested, multiple (or no) rows returned" :
                         Except String Bool))
                  | some cc =>
                      match updateProductByCloverById cc (successPayload d) now
                          (updateParentStock pid now
                            (insertVariant (variantPayload d q pid) now s1)) with
                      | (s4, .ok _) => (s4, Except.ok true)
                      | (s4, .error e) => (s4, Except.error e)) :
                  CatalogState × Except String Bool).1 = cloverMark c s := by
              intro pid s1 h1
              have hmid : cloverMark c (updateParentStock pid now
                  (insertVariant (variantPayload d q pid) now s1)) = cloverMark c s := by
                rw [cloverMark_stock_update, cloverMark_insertVariant]
                exact h1
              cases hcq : q.clover_id with
              | none => exact hmid
              | some cq =>
                  have hne : cq ≠ c := fun he => hq (by rw [hcq, he])
                  show cloverMark c (match updateProductByCloverById cq (successPayload d) now
                      (updateParentStock pid now
                        (insertVariant (variantPayload d q pid) now s1)) with
                    | (s4, .ok _) => (s4, (Except.ok true : Except String Bool))
                    | (s4, .error e) => (s4, Except.error e)).1 = cloverMark c s
                  cases hupd : updateProductByCloverById cq (successPayload d) now
                      (updateParentStock pid now
                        (insertVariant (variantPayload d q pid) now s1)) with
                  | mk s4 e =>
                      have hm : cloverMark c s4 = cloverMark c s := by
                        have h5 := cloverMark_update_other c cq (successPayload d) now
                          (updateParentStock pid now
                            (insertVariant (variantPayload d q pid) now s1)) hne
                        rw [hupd] at h5
                        rw [h5]
                        exact hmid
                      cases e with
                      | ok v => exact hm
                      | error msg => exact hm
            cases hfp : findParentProduct d.brand d.model none s with
            | some p0 => exact tail p0.id s rfl
            | none =>
                rw [upsertProduct_none (parentPayload d q) now s rfl]
                exact tail (insertedProduct (parentPayload d q) s.nextId now).id
                  { s with
                    products := s.products ++ [insertedProduct (parentPayload d q) s.nextId now]
                    nextId := s.nextId + 1 }
                  (cloverMark_append_parent c _ s _ _ rfl)

lemma update_self_eq (c : String) (u : ProductUpdateP) (now : Nat) (s : CatalogState)
    (rowB : NProduct)
    (hfil : s.products.filter (fun p => p.clover_id == some c) = [rowB]) :
    updateProductByCloverById c u now s
      = ({ s with products := s.products.map (fun p =>
          if p.clover_id == some c then applyProductUpdate p u now else p) },
         .ok (applyProductUpdate rowB u now)) := by
  unfold updateProductByCloverById
  rw [hfil]

lemma mark_mapped (c : String) (u : ProductUpdateP) (cn : String) (pt : PType) (now : Nat)
    (s : CatalogState) (rowB : NProduct)
    (hu1 : u.is_normalized = some true) (hu2 : u.clean_name = some cn)
    (hu3 : u.product_type = some pt)
    (hfil : s.products.filter (fun p => p.clover_id == some c) = [rowB]) :
    cloverMark c { s with products := s.products.map (fun p =>
        if p.clover_id == some c then applyProductUpdate p u now else p) }
      = [(true, some cn, some pt)] := by
  unfold cloverMark
  show ((s.products.map _).filter _).map _ = _
  rw [filter_map_comm _ _ _ (fun a => by
    by_cases hh : (a.clover_id == some c) = true <;> simp [hh, applyProductUpdate]), hfil]
  have hrb : rowB.clover_id = some c := by
    have hmem : rowB ∈ s.products.filter (fun p => p.clover_id == some c) := by
      rw [hfil]; exact List.mem_singleton_self _
    have h2 := List.of_mem_filter hmem
    exact eq_of_beq h2
  simp [hrb, applyProductUpdate, hu1, hu2, hu3, updField]

lemma updateParentStock_filter_clover (c : String) (pid now : Nat) (s : CatalogState)
    (rowB : NProduct)
    (h : s.products.filter (fun p => p.clover_id == some c) = [rowB]) :
    ∃ rowC, (updateParentStock pid now s).products.filter
        (fun p => p.clover_id == some c) = [rowC] := by
  unfold updateParentStock
  rw [filter_map_comm _ _ _ (fun a => by by_cases hh : a.id = pid <;> simp [hh]), h]
  exact ⟨_, rfl⟩

lemma processRow_marks (classify : String → ClassifyOutcome) (now : Nat)
    (r : NProduct) (s : CatalogState) (c : String) (res : Option CleanedProductData)
    (rowB : NProduct)
    (hc : r.clover_id = some c)
    (hfil : s.products.filter (fun p => p.clover_id == some c) = [rowB])
    (hcl : classify r.raw_name = .ok res) :
    ∃ s' b, processRow classify now r s = (s', .ok b)
      ∧ cloverMark c s' = [(true, expectedCleanName res r, expectedPType res)] := by
  cases res with
  | none =>
      simp only [processRow, hcl, fallbackRow, hc]
      rw [update_self_eq c (fallbackPayload r) now s rowB hfil]
      exact ⟨_, false, rfl,
        mark_mapped c (fallbackPayload r) r.raw_name PType.other now s rowB rfl rfl rfl hfil⟩
  | some d =>
      by_cases hlow : (d.confidence == Confidence.low) = true
      · simp only [processRow, hcl, hlow, if_true, fallbackRow, hc,
          expectedCleanName, expectedPType]
        rw [update_self_eq c (fallbackPayload r) now s rowB hfil]
        exact ⟨_, false, rfl,
          mark_mapped c (fallbackPayload r) r.raw_name PType.other now s rowB rfl rfl rfl hfil⟩
      · simp only [processRow, hcl, expectedCleanName, expectedPType, hlow, if_false]
        rw [if_neg Bool.false_ne_true]
        have tail : ∀ pid : Nat, ∀ s1 : CatalogState,
            s1.products.filter (fun p => p.clover_id == some c) = [rowB] →
            ∃ s' b, ((match r.clover_id with
              | none =>
                  (updateParentStock pid now
                    (insertVariant (variantPayload d r pid) now s1),
                   (Except.error
                     "JSON object requested, multiple (or no) rows returned" :
                     Except String Bool))
              | some cc =>
                  match updateProductByCloverById cc (successPayload d) now
                      (updateParentStock pid now
                        (insertVariant (variantPayload d r pid) now s1)) with
                  | (s4, .ok _) => (s4, Except.ok true)
                  | (s4, .error e) => (s4, Except.error e)) :
              CatalogState × Except String Bool) = (s', .ok b)
              ∧ cloverMark c s' = [(true, some d.cleanedName, some d.productType)] := by
          intro pid s1 hfil1
          have hfil2 : (insertVariant (variantPayload d r pid) now s1).products.filter
              (fun p => p.clover_id == some c) = [rowB] := by
            rw [insertVariant_products]
            exact hfil1
          obtain ⟨rowC, hfil3⟩ := updateParentStock_filter_clover c pid now
            (insertVariant (variantPayload d r pid) now s1) rowB hfil2
          rw [hc]
          show ∃ s' b, (match updateProductByCloverById c (successPayload d) now
              (updateParentStock pid now
                (insertVariant (variantPayload d r pid) now s1)) with
            | (s4, .ok _) => (s4, (Except.ok true : Except String Bool))
            | (s4, .error e) => (s4, Except.error e)) = (s', .ok b)
            ∧ cloverMark c s' = [(true, some d.cleanedName, some d.productType)]
          rw [update_self_eq c (successPayload d) now _ rowC hfil3]
          exact ⟨_, true, rfl,
            mark_mapped c (successPayload d) d.cleanedName d.productType now _ rowC
              rfl rfl rfl hfil3⟩
        cases hfp : findParentProduct d.brand d.model none s with
        | some p0 => exact tail p0.id s hfil
        | none =>
            rw [upsertProduct_none (parentPayload d r) now s rfl]
            refine tail (insertedProduct (parentPayload d r) s.nextId now).id
              { s with
                products := s.products ++ [insertedProduct (parentPayload d r) s.nextId now]
                nextId := s.nextId + 1 } ?_
            show (s.products ++ [insertedProduct (parentPayload d r) s.nextId now]).filter
                (fun p => p.clover_id == some c) = [rowB]
            rw [List.filter_append, hfil]
            have : ([insertedProduct (parentPayload d r) s.nextId now].filter
                (fun p => p.clover_id == some c)) = [] := by
              simp [insertedProduct, parentPayload]
            rw [this, List.append_nil]

lemma updateProductByCloverById_error (c : String) (u : ProductUpdateP) (now : Nat)
    (s s2 : CatalogState) (msg : String)
    (h : updateProductByCloverById c u now s = (s2, .error msg)) :
    msg = "JSON object requested, multiple (or no) rows returned" := by
  unfold updateProductByCloverById at h
  cases hf : s.products.filter (fun p => p.clover_id == some c) with
  | nil =>
      simp only [hf] at h
      injection h with h1 h2
      injection h2 with h3
      exact h3.symm
  | cons a t =>
      cases t with
      | nil =>
          simp only [hf] at h
          injection h with h1 h2
          injection h2
      | cons b t2 =>
          simp only [hf] at h
          injection h with h1 h2
          injection h2 with h3
          exact h3.symm

lemma fallbackRow_error (product : NProduct) (now : Nat) (s s' : CatalogState) (msg : String)
    (h : fallbackRow product now s = (s', .error msg)) :
    msg = "JSON object requested, multiple (or no) rows returned" := by
  unfold fallbackRow at h
  cases hcid : product.clover_id with
  | none =>
      simp only [hcid] at h
      injection h with h1 h2
      injection h2 with h3
      exact h3.symm
  | some cc =>
      simp only [hcid] at h
      cases hupd : updateProductByCloverById cc (fallbackPayload product) now s with
      | mk s4 e =>
          simp only [hupd] at h
          cases e with
          | ok v =>
              injection h with h1 h2
              injection h2
          | error m =>
              injection h with h1 h2
              injection h2 with h3
              rw [← h3]
              exact updateProductByCloverById_error cc (fallbackPayload product) now s s4 m hupd

lemma processRow_error_msg (classify : String → ClassifyOutcome) (now : Nat)
    (product : NProduct) (s s' : CatalogState) (msg : String)
    (h : processRow classify now product s = (s', .error msg)) :
    classify product.raw_name = ClassifyOutcome.thrown msg
      ∨ msg = "JSON object requested, multiple (or no) rows returned" := by
  cases hcl : classify product.raw_name with
  | thrown m =>
      simp only [processRow, hcl] at h
      injection h with h1 h2
      injection h2 with h3
      exact Or.inl (by rw [h3])
  | ok aiResult =>
      cases aiResult with
      | none =>
          simp only [processRow, hcl] at h
          exact Or.inr (fallbackRow_error product now s s' msg h)
      | some d =>
          by_cases hlow : (d.confidence == Confidence.low) = true
          · simp only [processRow, hcl, hlow, if_true] at h
            exact Or.inr (fallbackRow_error product now s s' msg h)
          · simp only [processRow, hcl, hlow, if_false] at h
            rw [if_neg Bool.false_ne_true] at h
            have tail : ∀ (pid : Nat) (s1 : CatalogState),
                ((match product.clover_id with
                  | none =>
                      (updateParentStock pid now
                        (insertVariant (variantPayload d product pid) now s1),
                       (Except.error
                         "JSON object requested, multiple (or no) rows returned" :
                         Except String Bool))
                  | some cc =>
                      match updateProductByCloverById cc (successPayload d) now
                          (updateParentStock pid now
                            (insertVariant (variantPayload d product pid) now s1)) with
                      | (s4, .ok _) => (s4, Except.ok true)
                      | (s4, .error e) => (s4, Except.error e)) :
                  CatalogState × Except String Bool) = (s', .error msg) →
                msg = "JSON object requested, multiple (or no) rows returned" := by
              intro pid s1 hm
              cases hcid : product.clover_id with
              | none =>
                  simp only [hcid] at hm
                  injection hm with h1 h2
                  injection h2 with h3
                  exact h3.symm
              | some cc =>
                  simp only [hcid] at hm
                  cases hupd : updateProductByCloverById cc (successPayload d) now
                      (updateParentStock pid now
                        (insertVariant (variantPayload d product pid) now s1)) with
                  | mk s4 e =>
                      simp only [hupd] at hm
                      cases e with
                      | ok v =>
                          injection hm with h1 h2
                          injection h2
                      | error m =>
                          injection hm with h1 h2
                          injection h2 with h3
                          rw [← h3]
                          exact updateProductByCloverById_error cc (successPayload d)
                            now _ s4 m hupd
            cases hfp : findParentProduct d.brand d.model none s with
            | some p0 =>
                simp only [hfp] at h
                exact Or.inr (tail p0.id s h)
            | none =>
                simp only [hfp] at h
                cases hup : upsertProduct (parentPayload d product) now s with
                | mk parent s1 =>
                    simp only [hup] at h
                    exact Or.inr (tail parent.id s1 h)

lemma normalizeLoop_mark_preserve (classify : String → ClassifyOutcome) (now : Nat) :
    ∀ (l : List NProduct) (st : NormState) (c : String),
      (∀ q ∈ l, q.clover_id ≠ some c) →
      cloverMark c (normalizeLoop classify now l st).s = cloverMark c st.s := by
  intro l
  induction l with
  | nil => intro st c _; rfl
  | cons q t ih =>
      intro st c hl
      have hq : q.clover_id ≠ some c := hl q (List.mem_cons_self q t)
      have ht : ∀ p ∈ t, p.clover_id ≠ some c :=
        fun p hp => hl p (List.mem_cons_of_mem q hp)
      cases hpr : processRow classify now q st.s with
      | mk s2 e =>
          have hmark : cloverMark c s2 = cloverMark c st.s := by
            have hh := processRow_mark_other classify now q st.s c hq
            rw [hpr] at hh
            exact hh
          cases e with
          | ok b =>
              cases b with
              | true =>
                  have hstep : normalizeLoop classify now (q :: t) st
                      = normalizeLoop classify now t
                          { st with s := s2, normalized := st.normalized + 1 } := by
                    simp only [normalizeLoop, hpr]
                  rw [hstep, ih { st with s := s2, normalized := st.normalized + 1 } c ht]
                  exact hmark
              | false =>
                  have hstep : normalizeLoop classify now (q :: t) st
                      = normalizeLoop classify now t
                          { st with s := s2, synced := st.synced + 1 } := by
                    simp only [normalizeLoop, hpr]
                  rw [hstep, ih { st with s := s2, synced := st.synced + 1 } c ht]
                  exact hmark
          | error msg =>
              by_cases h429 : contains429 msg = true
              · have hstep : normalizeLoop classify now (q :: t) st
                    = { st with s := s2, rateLimited := true } := by
                  simp only [normalizeLoop, hpr]
                  rw [if_pos h429]
                rw [hstep]
                exact hmark
              · have hstep : normalizeLoop classify now (q :: t) st
                    = normalizeLoop classify now t
                        { st with
                          s := s2
                          errors := st.errors ++
                            ["Failed to normalize " ++ cloverStr q ++ ": " ++ msg] } := by
                  simp only [normalizeLoop, hpr]
                  rw [if_neg h429]
                rw [hstep, ih _ c ht]
                exact hmark

lemma normalizeLoop_pre (classify : String → ClassifyOutcome) (now : Nat) :
    ∀ pre : List NProduct,
      (∀ q ∈ pre, ∀ m, classify q.raw_name = ClassifyOutcome.thrown m →
        contains429 m = false) →
      ∀ (rest : List NProduct) (st : NormState),
      ∃ st' : NormState,
        normalizeLoop classify now (pre ++ rest) st = normalizeLoop classify now rest st'
        ∧ (∀ c', (∀ q ∈ pre, q.clover_id ≠ some c') →
            cloverMark c' st'.s = cloverMark c' st.s)
        ∧ st'.rateLimited = st.rateLimited
        ∧ ∃ extra, st'.errors = st.errors ++ extra := by
  intro pre
  induction pre with
  | nil =>
      intro _ rest st
      exact ⟨st, rfl, fun _ _ => rfl, rfl, [], (List.append_nil _).symm⟩
  | cons q t ih =>
      intro hpre429 rest st
      have hq429 : ∀ m, classify q.raw_name = ClassifyOutcome.thrown m →
          contains429 m = false := hpre429 q (List.mem_cons_self q t)
      have ht429 : ∀ p ∈ t, ∀ m, classify p.raw_name = ClassifyOutcome.thrown m →
          contains429 m = false := fun p hp => hpre429 p (List.mem_cons_of_mem q hp)
      cases hpr : processRow classify now q st.s with
      | mk s2 e =>
          have hmark : ∀ c', q.clover_id ≠ some c' → cloverMark c' s2 = cloverMark c' st.s := by
            intro c' hqc
            have hh := processRow_mark_other classify now q st.s c' hqc
            rw [hpr] at hh
            exact hh
          cases e with
          | ok b =>
              cases b with
              | true =>
                  obtain ⟨st', he, hmk, hr, extra, hex⟩ :=
                    ih ht429 rest { st with s := s2, normalized := st.normalized + 1 }
                  have hstep : normalizeLoop classify now ((q :: t) ++ rest) st
                      = normalizeLoop classify now (t ++ rest)
                          { st with s := s2, normalized := st.normalized + 1 } := by
                    simp only [List.cons_append, normalizeLoop, hpr]
                    rfl
                  refine ⟨st', by rw [hstep, he], ?_, hr, extra, hex⟩
                  intro c' hc'
                  exact (hmk c' (fun p hp => hc' p (List.mem_cons_of_mem q hp))).trans
                    (hmark c' (hc' q (List.mem_cons_self q t)))
              | false =>
                  obtain ⟨st', he, hmk, hr, extra, hex⟩ :=
                    ih ht429 rest { st with s := s2, synced := st.synced + 1 }
                  have hstep : normalizeLoop classify now ((q :: t) ++ rest) st
                      = normalizeLoop classify now (t ++ rest)
                          { st with s := s2, synced := st.synced + 1 } := by
                    simp only [List.cons_append, normalizeLoop, hpr]
                    rfl
                  refine ⟨st', by rw [hstep, he], ?_, hr, extra, hex⟩
                  intro c' hc'
                  exact (hmk c' (fun p hp => hc' p (List.mem_cons_of_mem q hp))).trans
                    (hmark c' (hc' q (List.mem_cons_self q t)))
          | error msg =>
              have h429 : ¬ contains429 msg = true := by
                rcases processRow_error_msg classify now q st.s s2 msg hpr with hth | hstr
                · rw [hq429 msg hth]
                  exact Bool.false_ne_true
                · rw [hstr]
                  decide
              obtain ⟨st', he, hmk, hr, extra, hex⟩ :=
                ih ht429 rest
                  { st with
                    s := s2
                    errors := st.errors ++
                      ["Failed to normalize " ++ cloverStr q ++ ": " ++ msg] }
              have hstep : normalizeLoop classify now ((q :: t) ++ rest) st
                  = normalizeLoop classify now (t ++ rest)
                      { st with
                        s := s2
                        errors := st.errors ++
                          ["Failed to normalize " ++ cloverStr q ++ ": " ++ msg] } := by
                simp only [List.cons_append, normalizeLoop, hpr]
                rw [if_neg h429]
                rfl
              refine ⟨st', by rw [hstep, he], ?_, hr,
                ["Failed to normalize " ++ cloverStr q ++ ": " ++ msg] ++ extra, ?_⟩
              · intro c' hc'
                exact (hmk c' (fun p hp => hc' p (List.mem_cons_of_mem q hp))).trans
                  (hmark c' (hc' q (List.mem_cons_self q t)))
              · rw [hex]
                exact List.append_assoc _ _ _

lemma normalizeLoop_errors_mono (classify : String → ClassifyOutcome) (now : Nat) :
    ∀ (l : List NProduct) (st : NormState),
      ∃ extra, (normalizeLoop classify now l st).errors = st.errors ++ extra := by
  intro l
  induction l with
  | nil => intro st; exact ⟨[], (List.append_nil _).symm⟩
  | cons q t ih =>
      intro st
      cases hpr : processRow classify now q st.s with
      | mk s2 e =>
          cases e with
          | ok b =>
              cases b with
              | true =>
                  obtain ⟨extra, hex⟩ := ih { st with s := s2, normalized := st.normalized + 1 }
                  refine ⟨extra, ?_⟩
                  have hstep : normalizeLoop classify now (q :: t) st
                      = normalizeLoop classify now t
                          { st with s := s2, normalized := st.normalized + 1 } := by
                    simp only [normalizeLoop, hpr]
                  rw [hstep]
                  exact hex
              | false =>
                  obtain ⟨extra, hex⟩ := ih { st with s := s2, synced := st.synced + 1 }
                  refine ⟨extra, ?_⟩
                  have hstep : normalizeLoop classify now (q :: t) st
                      = normalizeLoop classify now t
                          { st with s := s2, synced := st.synced + 1 } := by
                    simp only [normalizeLoop, hpr]
                  rw [hstep]
                  exact hex
          | error msg =>
              by_cases h429 : contains429 msg = true
              · refine ⟨[], ?_⟩
                have hstep : normalizeLoop classify now (q :: t) st
                    = { st with s := s2, rateLimited := true } := by
                  simp only [normalizeLoop, hpr]
                  rw [if_pos h429]
                rw [hstep]
                exact (List.append_nil _).symm
              · obtain ⟨extra, hex⟩ := ih
                  { st with
                    s := s2
                    errors := st.errors ++
                      ["Failed to normalize " ++ cloverStr q ++ ": " ++ msg] }
                refine ⟨["Failed to normalize " ++ cloverStr q ++ ": " ++ msg] ++ extra, ?_⟩
                have hstep : normalizeLoop classify now (q :: t) st
                    = normalizeLoop classify now t
                        { st with
                          s := s2
                          errors := st.errors ++
                            ["Failed to normalize " ++ cloverStr q ++ ": " ++ msg] } := by
                  simp only [normalizeLoop, hpr]
                  rw [if_neg h429]
                rw [hstep, hex]
                exact List.append_assoc _ _ _

/-- Claim C6: `addItemToCart` for a product whose existing cart row would be
pushed past `MAX_ITEM_QUANTITY` by the added quantity returns an error and
leaves the store untouched (no clamping, no partial update). -/
theorem c6_add_item_overflow_rejected (L : CartLimits) (cartId : Nat)
    (productId : String) (quantity : Int) (now : Nat) (s : CartState)
    (ex : CartItemRow)
    (hex : (s.items.filter (fun i => i.cartId == cartId && i.productId == productId)).head?
      = some ex)
    (hover : ex.quantity + quantity > L.maxItemQuantity) :
    (addItemToCart L cartId productId quantity now s).1 = s
      ∧ ∃ e, (addItemToCart L cartId productId quantity now s).2 = Except.error e := by
  unfold addItemToCart
  by_cases h1 : quantity ≤ 0
  · simp [h1]
  · by_cases h2 : quantity > L.maxItemQuantity
    · simp [h1, h2]
    · cases hg : getCart cartId s with
      | none => simp [h1, h2, hg]
      | some cart => simp [h1, h2, hg, hex, hover]

/-- Claim C6 witness: cart 1 holds 8 of product "p" with a cap of 10; adding
5 more errors out and changes nothing. -/
theorem c6_add_item_overflow_rejected_witness :
    (addItemToCart
        { maxCartItems := 50, maxItemQuantity := 10, maxCartsPerUser := 3, maxSessionCarts := 3 }
        1 "p" 5 99
        { carts := [{ id := 1, userId := some "u", sessionId := none,
                      createdAt := 0, updatedAt := 0 }],
          items := [{ id := 2, cartId := 1, productId := "p", quantity := 8 }],
          nextId := 3 }).1
      = { carts := [{ id := 1, userId := some "u", sessionId := none,
                      createdAt := 0, updatedAt := 0 }],
          items := [{ id := 2, cartId := 1, productId := "p", quantity := 8 }],
          nextId := 3 }
      ∧ ∃ e, (addItemToCart
        { maxCartItems := 50, maxItemQuantity := 10, maxCartsPerUser := 3, maxSessionCarts := 3 }
        1 "p" 5 99
        { carts := [{ id := 1, userId := some "u", sessionId := none,
                      createdAt := 0, updatedAt := 0 }],
          items := [{ id := 2, cartId := 1, productId := "p", quantity := 8 }],
          nextId := 3 }).2 = Except.error e :=
  c6_add_item_overflow_rejected _ 1 "p" 5 99 _
    { id := 2, cartId := 1, productId := "p", quantity := 8 } (by decide) (by decide)

/-- Claim C7 counterexample: a user who already owns `MAX_CARTS_PER_USER`
carts (here the cap is 2 and user "u" owns carts 1 and 2) does not get the
claimed evict-then-create behavior from `getOrCreateCart`: the function
returns the most-recently-updated existing cart and the store is unchanged —
nothing is deleted and no fresh cart is created.  (The claim's own guard "no
user cart exists" cannot hold together with "the user owns at least
MAX_CARTS_PER_USER carts", so the eviction branch, which sits behind the
empty-lookup guard, is unreachable in fault-free execution.) -/
theorem c7_no_eviction_when_at_cap :
    getOrCreateCart
        { maxCartItems := 50, maxItemQuantity := 10, maxCartsPerUser := 2, maxSessionCarts := 2 }
        (some "u") none 20
        { carts := [{ id := 1, userId := some "u", sessionId := none,
                      createdAt := 0, updatedAt := 5 },
                    { id := 2, userId := some "u", sessionId := none,
                      createdAt := 0, updatedAt := 9 }],
          items := [{ id := 10, cartId := 1, productId := "P", quantity := 2 }],
          nextId := 11 }
      = ({ carts := [{ id := 1, userId := some "u", sessionId := none,
                       createdAt := 0, updatedAt := 5 },
                     { id := 2, userId := some "u", sessionId := none,
                       createdAt := 0, updatedAt := 9 }],
           items := [{ id := 10, cartId := 1, productId := "P", quantity := 2 }],
           nextId := 11 },
         .ok { id := 2, userId := some "u", sessionId := none, items := [],
               createdAt := 0, updatedAt := 9 }) := by
  rfl

/-- Claim C7 (amended): the eviction branch of `getOrCreateCart` is guarded
by the user-cart lookup having found nothing, so in fault-free execution it
can only run for a user who owns no carts; in that case (and with no session
cart to convert) nothing is deleted — the cap check passes vacuously for any
cap of at least 1 — and a fresh user cart with a new unique id and
`createdAt = updatedAt = now` is inserted. -/
theorem c7_create_fresh_cart_when_none (L : CartLimits) (uid : String)
    (sessionId : Option String) (now : Nat) (s : CartState)
    (hL : 1 ≤ L.maxCartsPerUser)
    (huser : s.carts.filter (fun c => c.userId == some uid) = [])
    (hsess : ∀ sid, sessionId = some sid →
      s.carts.filter (fun c => c.sessionId == some sid && c.userId == none) = [])
    (hfresh : ∀ c ∈ s.carts, c.id < s.nextId) :
    getOrCreateCart L (some uid) sessionId now s
        = ({ s with
              carts := s.carts ++ [{ id := s.nextId, userId := some uid, sessionId := none,
                                     createdAt := now, updatedAt := now }]
              nextId := s.nextId + 1 },
           .ok { id := s.nextId, userId := some uid, sessionId := none, items := [],
                 createdAt := now, updatedAt := now })
      ∧ s.nextId ∉ s.carts.map (fun c => c.id) := by
  constructor
  · have hcap : ¬ ((sortByUpdatedDesc (s.carts.filter (fun c => c.userId == some uid))).length
        ≥ L.maxCartsPerUser) := by
      rw [huser]
      simp [sortByUpdatedDesc]
      omega
    cases hsid : sessionId with
    | none =>
        simp [getOrCreateCart, huser, sortByUpdatedDesc, createUserCartWithCleanup, hcap]
    | some sid =>
        have h2 := hsess sid hsid
        subst hsid
        simp [getOrCreateCart, huser, h2, sortByUpdatedDesc, createUserCartWithCleanup, hcap]
  · intro hmem
    rcases List.mem_map.mp hmem with ⟨c, hc, hcid⟩
    exact absurd hcid (Nat.ne_of_gt (hfresh c hc)).symm

/-- Claim C7 amended witness: a user with no carts gets a fresh cart. -/
theorem c7_create_fresh_cart_when_none_witness :
    getOrCreateCart
        { maxCartItems := 50, maxItemQuantity := 10, maxCartsPerUser := 3, maxSessionCarts := 3 }
        (some "u") none 20
        { carts := [{ id := 1, userId := some "v", sessionId := none,
                      createdAt := 0, updatedAt := 5 }],
          items := [], nextId := 2 }
        = ({ carts := [{ id := 1, userId := some "v", sessionId := none,
                         createdAt := 0, updatedAt := 5 },
                       { id := 2, userId := some "u", sessionId := none,
                         createdAt := 20, updatedAt := 20 }],
             items := [], nextId := 3 },
           .ok { id := 2, userId := some "u", sessionId := none, items := [],
                 createdAt := 20, updatedAt := 20 })
      ∧ 2 ∉ [1] := by
  have h := c7_create_fresh_cart_when_none
    { maxCartItems := 50, maxItemQuantity := 10, maxCartsPerUser := 3, maxSessionCarts := 3 }
    "u" none 20
    { carts := [{ id := 1, userId := some "v", sessionId := none,
                  createdAt := 0, updatedAt := 5 }],
      items := [], nextId := 2 }
    (by decide) (by decide) (fun sid h => nomatch h) (by decide)
  exact ⟨h.1, by decide⟩

/-- Claim C5: when `normalizeUnnormalizedProducts` processes a raw row whose
classification result is null or has `confidence = low`, the row is still
marked `is_normalized = true`, with the raw name as its clean name and
product type `other` — it is never left `is_normalized = false` after a
processed attempt.  (The rows processed before it must not be rate-limited,
or the batch would stop before reaching this row; they and the rows after it
carry other Clover ids, and this row is the unique one stored under its
Clover id, so the `.single()` update targets exactly it.) -/
theorem c5_fallback_rows_marked_normalized
    (classify : String → ClassifyOutcome) (batchSize now : Nat) (s0 : CatalogState)
    (pre post : List NProduct) (r : NProduct) (c : String)
    (res : Option CleanedProductData)
    (hsplit : getUnnormalizedProducts batchSize s0 = pre ++ r :: post)
    (hc : r.clover_id = some c)
    (huniq : s0.products.filter (fun p => p.clover_id == some c) = [r])
    (hfb : res = none ∨ ∃ d, res = some d ∧ (d.confidence == Confidence.low) = true)
    (hpre : ∀ q ∈ pre, q.clover_id ≠ some c)
    (hpost : ∀ q ∈ post, q.clover_id ≠ some c)
    (hpre429 : ∀ q ∈ pre, ∀ m, classify q.raw_name = ClassifyOutcome.thrown m →
      contains429 m = false)
    (hcl : classify r.raw_name = ClassifyOutcome.ok res) :
    cloverMark c (normalizeUnnormalizedProducts classify batchSize now s0).state
      = [(true, some r.raw_name, some PType.other)] := by
  have hexp1 : expectedCleanName res r = some r.raw_name := by
    rcases hfb with h | ⟨d, hd, hlow⟩
    · rw [h]
      rfl
    · rw [hd]
      simp [expectedCleanName, hlow]
  have hexp2 : expectedPType res = some PType.other := by
    rcases hfb with h | ⟨d, hd, hlow⟩
    · rw [h]
      rfl
    · rw [hd]
      simp [expectedPType, hlow]
  have hne : ((pre ++ r :: post).isEmpty) = false := by
    cases pre <;> rfl
  obtain ⟨st', he, hmk, hrl, extra, hex⟩ :=
    normalizeLoop_pre classify now pre hpre429 (r :: post)
      { s := s0, normalized := 0, synced := 0, errors := [], rateLimited := false }
  have hmk0 : cloverMark c st'.s = cloverMark c s0 := hmk c hpre
  have hm0 : cloverMark c s0 = [(r.is_normalized, r.clean_name, r.product_type)] := by
    unfold cloverMark
    rw [huniq]
    rfl
  have hlen : (st'.s.products.filter (fun p => p.clover_id == some c)).length = 1 := by
    have h1 := congrArg List.length (hmk0.trans hm0)
    simpa [cloverMark] using h1
  obtain ⟨rowB, hfilB⟩ := List.length_eq_one.mp hlen
  obtain ⟨s'', b, hpr, hmark''⟩ :=
    processRow_marks classify now r st'.s c res rowB hc hfilB hcl
  rw [hexp1, hexp2] at hmark''
  simp only [normalizeUnnormalizedProducts, hsplit, hne]
  rw [if_neg Bool.false_ne_true]
  show cloverMark c (normalizeLoop classify now (pre ++ r :: post)
      { s := s0, normalized := 0, synced := 0, errors := [], rateLimited := false }).s = _
  rw [he]
  cases b with
  | true =>
      have hstep : normalizeLoop classify now (r :: post) st'
          = normalizeLoop classify now post
              { st' with s := s'', normalized := st'.normalized + 1 } := by
        simp only [normalizeLoop, hpr]
      rw [hstep, normalizeLoop_mark_preserve classify now post
        { st' with s := s'', normalized := st'.normalized + 1 } c hpost]
      exact hmark''
  | false =>
      have hstep : normalizeLoop classify now (r :: post) st'
          = normalizeLoop classify now post
              { st' with s := s'', synced := st'.synced + 1 } := by
        simp only [normalizeLoop, hpr]
      rw [hstep, normalizeLoop_mark_preserve classify now post
        { st' with s := s'', synced := st'.synced + 1 } c hpost]
      exact hmark''

def c5row : NProduct :=
  { id := 0, clover_id := some "c1", raw_name := "SB DNK LO ???", clean_name := none,
    clean_brand := none, clean_model := none, clean_size := none, clean_colorway := none,
    product_type := none, price := some 120, stock_quantity := 3, is_normalized := false,
    is_parent := false, last_synced := 0 }

def c5S0 : CatalogState :=
  { products := [c5row], variants := [], nextId := 1 }

theorem c5_fallback_rows_marked_normalized_witness :
    cloverMark "c1" (normalizeUnnormalizedProducts (fun _ => ClassifyOutcome.ok none)
        5 7 c5S0).state = [(true, some "SB DNK LO ???", some PType.other)] :=
  c5_fallback_rows_marked_normalized (fun _ => ClassifyOutcome.ok none) 5 7 c5S0
    [] [] c5row "c1" none (by decide) rfl (by decide) (Or.inl rfl)
    (fun q hq => absurd hq (List.not_mem_nil q))
    (fun q hq => absurd hq (List.not_mem_nil q))
    (fun q hq => absurd hq (List.not_mem_nil q))
    rfl

/-- Claim C8: a per-row error in `normalizeUnnormalizedProducts` that carries
a rate-limit signal (429) sets `rateLimited = true` and aborts the remaining
batch at once, leaving every row not yet processed untouched in the store
(its `is_normalized`/clean fields unchanged); any other error is appended to
`errors[]` and the loop continues with the next row.  (The rows before the
failing one must themselves not be rate-limited, or the batch would stop
earlier.) -/
theorem c8_error_dispatch
    (classify : String → ClassifyOutcome) (batchSize now : Nat) (s0 : CatalogState)
    (pre rest : List NProduct) (bad : NProduct) (msg : String)
    (hsplit : getUnnormalizedProducts batchSize s0 = pre ++ bad :: rest)
    (hpre429 : ∀ q ∈ pre, ∀ m, classify q.raw_name = ClassifyOutcome.thrown m →
      contains429 m = false)
    (hthrown : classify bad.raw_name = ClassifyOutcome.thrown msg) :
    (containsSub msg.toList "429".toList = true →
      (normalizeUnnormalizedProducts classify batchSize now s0).rateLimited = true
      ∧ ∀ c', (∀ q ∈ pre, q.clover_id ≠ some c') →
          cloverMark c' (normalizeUnnormalizedProducts classify batchSize now s0).state
            = cloverMark c' s0)
    ∧ (containsSub msg.toList "429".toList = false →
        ("Failed to normalize " ++ cloverStr bad ++ ": " ++ msg)
          ∈ (normalizeUnnormalizedProducts classify batchSize now s0).errors) := by
  have hne : ((pre ++ bad :: rest).isEmpty) = false := by
    cases pre <;> rfl
  obtain ⟨st', he, hmk, hrl, extra, hex⟩ :=
    normalizeLoop_pre classify now pre hpre429 (bad :: rest)
      { s := s0, normalized := 0, synced := 0, errors := [], rateLimited := false }
  have hpr : processRow classify now bad st'.s = (st'.s, .error msg) := by
    simp only [processRow, hthrown]
  constructor
  · intro h429
    have hstep : normalizeLoop classify now (bad :: rest) st'
        = { st' with s := st'.s, rateLimited := true } := by
      simp only [normalizeLoop, hpr]
      rw [if_pos (show contains429 msg = true from h429)]
    constructor
    · simp only [normalizeUnnormalizedProducts, hsplit, hne]
      rw [if_neg Bool.false_ne_true]
      show (normalizeLoop classify now (pre ++ bad :: rest)
        { s := s0, normalized := 0, synced := 0, errors := [],
          rateLimited := false }).rateLimited = true
      rw [he, hstep]
    · intro c' hprec
      simp only [normalizeUnnormalizedProducts, hsplit, hne]
      rw [if_neg Bool.false_ne_true]
      show cloverMark c' (normalizeLoop classify now (pre ++ bad :: rest)
        { s := s0, normalized := 0, synced := 0, errors := [],
          rateLimited := false }).s = cloverMark c' s0
      rw [he, hstep]
      exact hmk c' hprec
  · intro h429
    have hstep : normalizeLoop classify now (bad :: rest) st'
        = normalizeLoop classify now rest
            { st' with
              s := st'.s
              errors := st'.errors ++
                ["Failed to normalize " ++ cloverStr bad ++ ": " ++ msg] } := by
      simp only [normalizeLoop, hpr]
      rw [if_neg (by rw [show contains429 msg = false from h429]; exact Bool.false_ne_true)]
    obtain ⟨extra2, hex2⟩ := normalizeLoop_errors_mono classify now rest
      { st' with
        s := st'.s
        errors := st'.errors ++
          ["Failed to normalize " ++ cloverStr bad ++ ": " ++ msg] }
    simp only [normalizeUnnormalizedProducts, hsplit, hne]
    rw [if_neg Bool.false_ne_true]
    show ("Failed to normalize " ++ cloverStr bad ++ ": " ++ msg)
      ∈ (normalizeLoop classify now (pre ++ bad :: rest)
        { s := s0, normalized := 0, synced := 0, errors := [],
          rateLimited := false }).errors
    rw [he, hstep, hex2]
    show ("Failed to normalize " ++ cloverStr bad ++ ": " ++ msg)
      ∈ (st'.errors ++ ["Failed to normalize " ++ cloverStr bad ++ ": " ++ msg]) ++ extra2
    exact List.mem_append_left _ (List.mem_append_right _ (List.mem_singleton_self _))

theorem c8_error_dispatch_witness :
    ((normalizeUnnormalizedProducts (fun _ => ClassifyOutcome.thrown "HTTP 429 Too Many Requests")
        5 7 c5S0).rateLimited = true
      ∧ cloverMark "c1" (normalizeUnnormalizedProducts
          (fun _ => ClassifyOutcome.thrown "HTTP 429 Too Many Requests") 5 7 c5S0).state
        = cloverMark "c1" c5S0)
    ∧ ("Failed to normalize " ++ cloverStr c5row ++ ": " ++ "boom")
        ∈ (normalizeUnnormalizedProducts (fun _ => ClassifyOutcome.thrown "boom")
            5 7 c5S0).errors := by
  constructor
  · have h := (c8_error_dispatch (fun _ => ClassifyOutcome.thrown "HTTP 429 Too Many Requests")
      5 7 c5S0 [] [] c5row "HTTP 429 Too Many Requests"
      (by decide) (fun q hq => absurd hq (List.not_mem_nil q)) rfl).1 (by decide)
    exact ⟨h.1, h.2 "c1" (fun q hq => absurd hq (List.not_mem_nil q))⟩
  · exact (c8_error_dispatch (fun _ => ClassifyOutcome.thrown "boom")
      5 7 c5S0 [] [] c5row "boom"
      (by decide) (fun q hq => absurd hq (List.not_mem_nil q)) rfl).2 (by decide)

/-- Claim C9: when there is no fresh cached result, `cleanProductNameWithAI`
returns `null` on every failure path — transport failure (network or non-OK
HTTP status), a missing/empty completion, a completion that does not parse
as JSON, or a parsed result missing a required field (`cleanedName` absent or
empty, or `brand` absent) — rather than raising to its caller. -/
theorem c9_classifier_null_contract
    (cached : Option (Option ParsedAI)) (apiKey : Option String)
    (parse : String → Option ParsedAI)
    (hcache : ∀ d, cached ≠ some (some d)) :
    cleanProductNameWithAI cached apiKey FetchOutcome.netError parse = none
    ∧ cleanProductNameWithAI cached apiKey FetchOutcome.httpError parse = none
    ∧ cleanProductNameWithAI cached apiKey (FetchOutcome.success none) parse = none
    ∧ (∀ text0, (text0.trim).isEmpty = true →
        cleanProductNameWithAI cached apiKey (FetchOutcome.success (some text0)) parse = none)
    ∧ (∀ text0, parse (text0.trim) = none → (text0.trim).isEmpty = false →
        cleanProductNameWithAI cached apiKey (FetchOutcome.success (some text0)) parse = none)
    ∧ (∀ text0 parsed, parse (text0.trim) = some parsed → (text0.trim).isEmpty = false →
        (parsed.cleanedName = none ∨ parsed.cleanedName = some "" ∨ parsed.brand = none) →
        cleanProductNameWithAI cached apiKey (FetchOutcome.success (some text0)) parse
          = none) := by
  have hcc : ∀ fr, cleanProductNameWithAI cached apiKey fr parse
      = cleanProductNameWithAI none apiKey fr parse := by
    intro fr
    cases cached with
    | none => rfl
    | some o =>
        cases o with
        | none => rfl
        | some d => exact absurd rfl (hcache d)
  refine ⟨?_, ?_, ?_, ?_, ?_, ?_⟩
  · rw [hcc]
    cases apiKey <;> rfl
  · rw [hcc]
    cases apiKey <;> rfl
  · rw [hcc]
    cases apiKey <;> rfl
  · intro text0 hemp
    rw [hcc]
    cases apiKey with
    | none => rfl
    | some k => simp [cleanProductNameWithAI, hemp]
  · intro text0 hparse hemp
    rw [hcc]
    cases apiKey with
    | none => rfl
    | some k => simp [cleanProductNameWithAI, hemp, hparse]
  · intro text0 parsed hparse hemp hbad
    rw [hcc]
    cases apiKey with
    | none => rfl
    | some k =>
        have hcond : ((match parsed.cleanedName with
            | some cn => !cn.isEmpty
            | none => false) && parsed.brand.isSome) = false := by
          rcases hbad with h | h | h
          · simp [h]
          · simp [h]
            intro habs
            exact absurd habs (by decide)
          · simp [h]
        simp [cleanProductNameWithAI, hemp, hparse, hcond]

theorem c9_classifier_null_contract_witness :
    cleanProductNameWithAI none (some "k") FetchOutcome.netError (fun _ => none) = none
    ∧ cleanProductNameWithAI none (some "k") (FetchOutcome.success none)
        (fun _ => none) = none := by
  have h := c9_classifier_null_contract none (some "k") (fun _ => none)
    (fun d hd => Option.noConfusion hd)
  exact ⟨h.1, h.2.2.1⟩

end Lexii
